import Mathlib

/-!
# Verification of the azure-neo4j-mcp test tooling

A shallow embedding of the Python test scripts of the repository:

* `local_http_validation/test_http_mode.py`   (namespace `TestHttpMode`)
* `bearer-mcp-server/client/test_bearer_client.py` (namespace `TestBearerClient`)
* `simple-mcp-server/client/test_client.py`   (namespace `TestClient`)
* `test-sso/validate_entra_m2m.py`, `test-sso/debug_token.py`,
  `test-sso/test_m2m.py`                      (namespace `TestSSO`)

Conventions of the embedding:

* Python `str` values are Lean `String`s; where character-level reasoning is
  needed (JWT splitting, base64) we work on `List Char` (`String.data`).
* Python `bytes` are `List Nat` with every element `< 256`.
* JSON values are the inductive `Json`; Python dicts are ordered association
  lists `List (String × Json)` (insertion order, first-match lookup; the
  scripts never build duplicate keys).
* Third-party library calls (`requests.post`, `msal`'s
  `acquire_token_for_client`, `jwt.decode`, `json.loads`) are oracles passed
  as function arguments; the behaviour of one HTTP exchange is a value of an
  explicit behaviour type.
* Python exceptions are `Except` errors; a `try/except` is an explicit match
  on the `Except`.
-/

/-! ## JSON values -/

/-- JSON values as produced by `json.loads` / consumed by `requests`' `json=`
argument.  Objects keep insertion order, like Python dicts. -/
inductive Json where
  | null
  | bool (b : Bool)
  | num (n : Int)
  | str (s : String)
  | arr (elems : List Json)
  | obj (fields : List (String × Json))

/-- First-match lookup in an association list, i.e. Python `dict.get` for the
dicts built by these scripts (which never carry duplicate keys). -/
def jget (fields : List (String × Json)) (k : String) : Option Json :=
  (fields.find? (fun p => p.1 == k)).map (fun p => p.2)

/-- Key list of a JSON object, in insertion order (Python `dict` ordering). -/
def jkeys (fields : List (String × Json)) : List String :=
  fields.map (fun p => p.1)

/-- Python truthiness of a JSON value (`if x:`). -/
def Json.truthy : Json → Bool
  | .null => false
  | .bool b => b
  | .num n => n != 0
  | .str s => !s.isEmpty
  | .arr xs => !xs.isEmpty
  | .obj fs => !fs.isEmpty

mutual

/-- Structural equality of JSON values (Python `==` for the scalar and
string-keyed values these scripts compare). -/
def Json.beq : Json → Json → Bool
  | .null, .null => true
  | .bool a, .bool b => a == b
  | .num a, .num b => a == b
  | .str a, .str b => a == b
  | .arr a, .arr b => Json.beqArr a b
  | .obj a, .obj b => Json.beqObj a b
  | _, _ => false

/-- Elementwise equality of JSON arrays. -/
def Json.beqArr : List Json → List Json → Bool
  | [], [] => true
  | x :: xs, y :: ys => Json.beq x y && Json.beqArr xs ys
  | _, _ => false

/-- Fieldwise equality of JSON objects. -/
def Json.beqObj : List (String × Json) → List (String × Json) → Bool
  | [], [] => true
  | (k1, v1) :: xs, (k2, v2) :: ys => k1 == k2 && Json.beq v1 v2 && Json.beqObj xs ys
  | _, _ => false

end

/-! ## Base64 (model of Python's `base64` module)

`b64EncodeChunks`/`b64DecodeChunks` model `base64.b64encode`/`b64decode`;
the table characters for values 62/63 are parameters so that the same
definitions cover the standard (`+`, `/`) and URL-safe (`-`, `_`) alphabets. -/

/-- Character of a 6-bit value in a base64 alphabet with table characters
`t62`, `t63` for the values 62 and 63. -/
def b64EncChar (t62 t63 : Char) (n : Nat) : Char :=
  if n < 26 then Char.ofNat (65 + n)
  else if n < 52 then Char.ofNat (97 + (n - 26))
  else if n < 62 then Char.ofNat (48 + (n - 52))
  else if n = 62 then t62
  else t63

/-- Value of a base64 alphabet character (`none` for characters outside the
alphabet). -/
def b64DecChar (t62 t63 : Char) (c : Char) : Option Nat :=
  if 65 ≤ c.toNat ∧ c.toNat ≤ 90 then some (c.toNat - 65)
  else if 97 ≤ c.toNat ∧ c.toNat ≤ 122 then some (c.toNat - 97 + 26)
  else if 48 ≤ c.toNat ∧ c.toNat ≤ 57 then some (c.toNat - 48 + 52)
  else if c = t62 then some 62
  else if c = t63 then some 63
  else none

/-- Padded base64 encoding of a byte sequence (Python `base64.b64encode`). -/
def b64EncodeChunks (t62 t63 : Char) : List Nat → List Char
  | a :: b :: c :: rest =>
      b64EncChar t62 t63 (a / 4) ::
      b64EncChar t62 t63 ((a % 4) * 16 + b / 16) ::
      b64EncChar t62 t63 ((b % 16) * 4 + c / 64) ::
      b64EncChar t62 t63 (c % 64) ::
      b64EncodeChunks t62 t63 rest
  | [a, b] =>
      [b64EncChar t62 t63 (a / 4),
       b64EncChar t62 t63 ((a % 4) * 16 + b / 16),
       b64EncChar t62 t63 ((b % 16) * 4), '=']
  | [a] =>
      [b64EncChar t62 t63 (a / 4), b64EncChar t62 t63 ((a % 4) * 16), '=', '=']
  | [] => []

/-- Unpadded base64 encoding (padded encoding with the trailing `=` dropped);
this is the alphabet used inside JWTs. -/
def b64EncodeNoPad (t62 t63 : Char) : List Nat → List Char
  | a :: b :: c :: rest =>
      b64EncChar t62 t63 (a / 4) ::
      b64EncChar t62 t63 ((a % 4) * 16 + b / 16) ::
      b64EncChar t62 t63 ((b % 16) * 4 + c / 64) ::
      b64EncChar t62 t63 (c % 64) ::
      b64EncodeNoPad t62 t63 rest
  | [a, b] =>
      [b64EncChar t62 t63 (a / 4),
       b64EncChar t62 t63 ((a % 4) * 16 + b / 16),
       b64EncChar t62 t63 ((b % 16) * 4)]
  | [a] =>
      [b64EncChar t62 t63 (a / 4), b64EncChar t62 t63 ((a % 4) * 16)]
  | [] => []

/-- Base64 decoding of a padded character sequence (Python
`base64.b64decode` on well-formed input; ill-formed input gives `none`,
modelling `binascii.Error`). -/
def b64DecodeChunks (t62 t63 : Char) : List Char → Option (List Nat)
  | [] => some []
  | c1 :: c2 :: c3 :: c4 :: rest =>
      if c3 = '=' ∧ c4 = '=' ∧ rest = [] then
        match b64DecChar t62 t63 c1, b64DecChar t62 t63 c2 with
        | some v1, some v2 => some [v1 * 4 + v2 / 16]
        | _, _ => none
      else if c4 = '=' ∧ rest = [] then
        match b64DecChar t62 t63 c1, b64DecChar t62 t63 c2, b64DecChar t62 t63 c3 with
        | some v1, some v2, some v3 =>
            some [v1 * 4 + v2 / 16, (v2 % 16) * 16 + v3 / 4]
        | _, _, _ => none
      else
        match b64DecChar t62 t63 c1, b64DecChar t62 t63 c2, b64DecChar t62 t63 c3,
              b64DecChar t62 t63 c4, b64DecodeChunks t62 t63 rest with
        | some v1, some v2, some v3, some v4, some tail =>
            some ((v1 * 4 + v2 / 16) :: ((v2 % 16) * 16 + v3 / 4) ::
                  ((v3 % 4) * 64 + v4) :: tail)
        | _, _, _, _, _ => none
  | _ => none

/-- UTF-8 bytes of one character (model of Python `str.encode()` per
character). -/
def utf8Char (c : Char) : List Nat :=
  let n := c.toNat
  if n < 128 then [n]
  else if n < 2048 then [192 + n / 64, 128 + n % 64]
  else if n < 65536 then [224 + n / 4096, 128 + (n / 64) % 64, 128 + n % 64]
  else [240 + n / 262144, 128 + (n / 4096) % 64, 128 + (n / 64) % 64, 128 + n % 64]

/-- UTF-8 bytes of a string (Python `str.encode()`). -/
def utf8Bytes (s : String) : List Nat :=
  (s.data.map utf8Char).flatten

/-- Standard-alphabet padded base64 of a string's UTF-8 bytes, as a string —
the composite `base64.b64encode(x.encode()).decode()` used for Basic auth. -/
def b64OfString (s : String) : String :=
  String.mk (b64EncodeChunks '+' '/' (utf8Bytes s))

/-! ## Shared helpers: Python-semantics utilities and HTTP behaviour -/

/-- Remove trailing `/` characters: Python `str.rstrip("/")`. -/
def rstripSlash (s : String) : String :=
  String.mk ((s.data.reverse.dropWhile (fun c => c = '/')).reverse)

/-- Lookup in a string-valued association list (Python `dict.get` on the
token dicts returned by `msal`). -/
def lookupS (l : List (String × String)) (k : String) : Option String :=
  (l.find? (fun p => p.1 == k)).map (fun p => p.2)

/-- Substring occurrence on character lists. -/
def listContains (needle : List Char) : List Char → Bool
  | [] => needle.isEmpty
  | c :: rest => List.isPrefixOf needle (c :: rest) || listContains needle rest

/-- Python `needle in haystack` on strings. -/
def strContains (haystack needle : String) : Bool :=
  listContains needle.data haystack.data

/-- Python `str.lower()` (ASCII, which is all these scripts compare). -/
def strLower (s : String) : String :=
  String.map Char.toLower s

/-- Python `x.get(k, default)`: succeeds only on a dict, raising
`AttributeError` otherwise. -/
def pyGet (j : Json) (k : String) (default : Json) : Except String Json :=
  match j with
  | .obj fs => .ok ((jget fs k).getD default)
  | _ => .error "AttributeError"

/-- Python `len(x)`: defined on strings, lists and dicts, `TypeError`
otherwise. -/
def pyLen : Json → Except String Nat
  | .str s => .ok s.length
  | .arr xs => .ok xs.length
  | .obj fs => .ok fs.length
  | _ => .error "TypeError"

/-- Python values that support slicing (`x[:n]`). -/
def sliceable : Json → Bool
  | .str _ => true
  | .arr _ => true
  | _ => false

/-- The tool-printing loops of the clients:
`for tool in tools: tool.get("name", ..); tool.get("description", "")[:n]`.
Succeeds when `tools` is a list of dicts whose `description` (when present)
is sliceable, or an empty iterable; raises otherwise. -/
def iterToolsGet (tools : Json) : Except String Unit :=
  match tools with
  | .arr xs =>
      if xs.all (fun t =>
          match t with
          | .obj fs => sliceable ((jget fs "description").getD (Json.str ""))
          | _ => false) then .ok ()
      else .error "AttributeError"
  | .str s => if s.isEmpty then .ok () else .error "AttributeError"
  | .obj fs => if fs.isEmpty then .ok () else .error "AttributeError"
  | _ => .error "TypeError"

/-- Python `k in j` for a string `k`: key membership on dicts, substring on
strings, element membership on lists, `TypeError` otherwise. -/
def pyIn (k : String) (j : Json) : Except String Bool :=
  match j with
  | .obj fs => .ok (jget fs k).isSome
  | .str s => .ok (strContains s k)
  | .arr xs => .ok (xs.any (fun x => Json.beq x (Json.str k)))
  | _ => .error "TypeError"

/-- Truthiness of `response["json"]` (which is `None` or a JSON value). -/
def jsonTruthyOpt : Option Json → Bool
  | none => false
  | some j => j.truthy

/-- One HTTP response as seen through `requests`: status code, headers, body
text, and the result of `response.json()` (`none` when the body is not
JSON, i.e. `.json()` raises). -/
structure HttpResponse where
  statusCode : Nat
  headers : List (String × String)
  bodyText : String
  bodyJson : Option Json

/-- Behaviour of one `requests.post` call: a response, or one of the
exception classes the scripts distinguish (`ConnectionError`, `Timeout`),
or any other exception. -/
inductive PostBehavior where
  | resp (r : HttpResponse)
  | connError
  | timeout
  | otherExn (msg : String)

/-- Environment: `os.environ.get`. -/
abbrev Env := String → Option String

/-- Python truthiness of `os.environ.get(..)` (unset or empty is falsy). -/
def envTruthy (v : Option String) : Bool :=
  match v with
  | some s => !s.isEmpty
  | none => false

/-- An apostrophe character as a string, kept out of literals. -/
def apos : String := "\x27"

/-! ## `test-sso`: JWT decoding and Entra M2M validation -/

namespace TestSSO

/-- The padding step shared by `decode_jwt_payload` (`debug_token.py`,
`test_m2m.py`) and `decode_part` (`validate_entra_m2m.py`):
`padding = 4 - len(part) % 4; if padding != 4: part += "=" * padding`. -/
def addPadding (part : List Char) : List Char :=
  let padding := 4 - part.length % 4
  if padding ≠ 4 then part ++ List.replicate padding '=' else part

/-- Python `str.split(".")`, on the character list of the string. -/
def splitOnDot : List Char → List (List Char)
  | [] => [[]]
  | c :: rest =>
      if c = '.' then [] :: splitOnDot rest
      else
        match splitOnDot rest with
        | [] => [[c]]
        | p :: ps => (c :: p) :: ps

/-- The `ValueError` family raised by the JWT segment decoders: the explicit
`ValueError("Invalid JWT format")`, `binascii.Error` (a `ValueError`
subclass) from `base64.urlsafe_b64decode`, and `json.JSONDecodeError` (a
`ValueError` subclass) from `json.loads`. -/
inductive JwtErr where
  | invalidFormat
  | binasciiError
  | jsonDecodeError
deriving DecidableEq

/-- `decode_jwt_payload` of `test-sso/debug_token.py` (the definition in
`test-sso/test_m2m.py` is identical): split on `.`, require exactly three
parts, pad the middle part, URL-safe base64-decode it, `json.loads` the
bytes.  `loads` is the `json.loads` oracle; `none` models
`json.JSONDecodeError`. -/
def decode_jwt_payload {J : Type} (loads : List Nat → Option J) (token : List Char) :
    Except JwtErr J :=
  match splitOnDot token with
  | [_, payload, _] =>
      match b64DecodeChunks '-' '_' (addPadding payload) with
      | none => .error .binasciiError
      | some bytes =>
          match loads bytes with
          | none => .error .jsonDecodeError
          | some o => .ok o
  | _ => .error .invalidFormat

/-- The inner `decode_part` of `decode_token_unverified` in
`test-sso/validate_entra_m2m.py`. -/
def decode_part (loads : List Nat → Option Json) (part : List Char) : Except JwtErr Json :=
  match b64DecodeChunks '-' '_' (addPadding part) with
  | none => .error .binasciiError
  | some bytes =>
      match loads bytes with
      | none => .error .jsonDecodeError
      | some o => .ok o

/-- `decode_token_unverified` of `test-sso/validate_entra_m2m.py`: require
exactly three `.`-separated parts, decode header (part 0) and payload
(part 1). -/
def decode_token_unverified (loads : List Nat → Option Json) (token : List Char) :
    Except JwtErr (Json × Json) :=
  match splitOnDot token with
  | [h, p, _] => do
      let header ← decode_part loads h
      let payload ← decode_part loads p
      pure (header, payload)
  | _ => .error .invalidFormat

/-- One recorded line of `ValidationResult.check`. -/
structure Check where
  name : String
  passed : Bool
  details : String
deriving DecidableEq

/-- `acquire_m2m_token` of `test-sso/validate_entra_m2m.py`.  `acquire` is
the `msal` `acquire_token_for_client` oracle, returning the token dict
(string-valued entries).  Returns the recorded checks and the token. -/
def acquire_m2m_token (tenant_id client_id client_secret : String)
    (acquire : List String → List (String × String)) :
    List Check × Option String :=
  let _authority := "https://login.microsoftonline.com/" ++ tenant_id
  let _credential := client_secret
  let c1 : Check := ⟨"Create MSAL ConfidentialClientApplication", true, ""⟩
  let scopes := ["api://" ++ client_id ++ "/.default"]
  let token_result := acquire scopes
  if (lookupS token_result "error").isSome then
    let error := (lookupS token_result "error").getD ""
    let error_desc := (lookupS token_result "error_description").getD ""
    let detail :=
      if strContains error_desc "AADSTS650053" || strContains (strLower error) "invalid_resource" then
        "Application ID URI not configured. Go to Azure Portal > App registrations > Expose an API > Add Application ID URI (api://{client_id})"
      else if strContains error_desc "AADSTS7000215" then
        "Invalid client secret. Create a new secret in Azure Portal."
      else if strContains error_desc "AADSTS700016" then
        "Application not found in tenant. Check client_id: " ++ client_id
      else
        error ++ ": " ++ error_desc.take 100
    ([c1, ⟨"Acquire M2M token", false, detail⟩], none)
  else
    match lookupS token_result "access_token" with
    | some tok =>
        if tok.isEmpty then
          ([c1, ⟨"Acquire M2M token", false, "No access_token in response"⟩], none)
        else
          ([c1, ⟨"Acquire M2M token", true, ""⟩], some tok)
    | none => ([c1, ⟨"Acquire M2M token", false, "No access_token in response"⟩], none)

/-- Failure modes of the two `requests.get` fetches inside
`validate_token_cryptographically`: `requests.RequestException` (caught by
the dedicated handler) versus any other exception (caught by the generic
handler). -/
inductive FetchErr where
  | reqExn (msg : String)
  | otherExn (msg : String)

/-- Behaviour of `jwt.decode`: success, or one of the `PyJWT` exception
classes the script distinguishes, or any other exception. -/
inductive JwtDecodeOutcome where
  | ok (payload : Json)
  | expired
  | invalidAudience (msg : String)
  | invalidIssuer (msg : String)
  | invalidSignature
  | decodeError (msg : String)
  | otherExn (msg : String)

/-- Diagnostic rendering of a JSON value inside an f-string (only used for
failure details; `kid` is a string in every real token). -/
def jsonShow : Json → String
  | .null => "None"
  | .bool true => "True"
  | .bool false => "False"
  | .num n => toString n
  | .str s => s
  | .arr _ => "<list>"
  | .obj _ => "<dict>"

/-- Message of a `ValueError` from `decode_token_unverified`, for the
generic exception handler's detail string. -/
def jwtErrMsg : JwtErr → String
  | .invalidFormat => "Invalid JWT format - expected 3 parts"
  | .binasciiError => "binascii.Error"
  | .jsonDecodeError => "json.JSONDecodeError"

/-- The key-matching loop
`for key in jwks.get("keys", []): if key.get("kid") == kid: ... break`,
on the JSON value of `keys`.  A non-dict element raises `AttributeError`
at `key.get`; a non-list iterable of dict keys or characters likewise
(unless empty); a non-iterable raises `TypeError`. -/
def findMatchingKeyList (kid : Json) : List Json → Except String (Option Json)
  | [] => .ok none
  | k :: rest =>
      match k with
      | .obj fs =>
          match jget fs "kid" with
          | some v => if Json.beq v kid then .ok (some k) else findMatchingKeyList kid rest
          | none => findMatchingKeyList kid rest
      | _ => .error "AttributeError"

/-- The same loop on an arbitrary JSON value for `keys`. -/
def findMatchingKey (kid : Json) : Json → Except String (Option Json)
  | .arr keys => findMatchingKeyList kid keys
  | .str s => if s.isEmpty then .ok none else .error "AttributeError"
  | .obj fs => if fs.isEmpty then .ok none else .error "AttributeError"
  | _ => .error "TypeError"

/-- `validate_token_cryptographically` of `test-sso/validate_entra_m2m.py`.

Oracles: `loads` is `json.loads`; `fetchOpenidJwksUri` is the composite
`get_jwks_uri` (one `requests.get` of the OpenID configuration plus the
`jwks_uri` field access); `fetchJwks` is `get_public_keys` (one
`requests.get` of the JWKS endpoint); `fromJwk` is
`RSAAlgorithm.from_jwk`; `jwtDecode` is `jwt.decode`, applied to the built
key, the algorithm list, the expected audience, and the valid issuer list.

Returns the recorded checks and the validated payload (`none` on any
failure). -/
def validate_token_cryptographically
    (token : List Char) (tenant_id client_id : String)
    (loads : List Nat → Option Json)
    (fetchOpenidJwksUri : Except FetchErr String)
    (fetchJwks : String → Except FetchErr Json)
    (fromJwk : Json → Except String Json)
    (jwtDecode : Json → List String → String → List String → JwtDecodeOutcome) :
    List Check × Option Json :=
  match fetchOpenidJwksUri with
  | .error (.reqExn m) => ([⟨"Fetch JWKS", false, "Network error: " ++ m⟩], none)
  | .error (.otherExn m) => ([⟨"Token validation", false, "Unexpected error: " ++ m⟩], none)
  | .ok jwks_uri =>
  let c1 : Check := ⟨"Fetch OpenID configuration", true, ""⟩
  match fetchJwks jwks_uri with
  | .error (.reqExn m) => ([c1, ⟨"Fetch JWKS", false, "Network error: " ++ m⟩], none)
  | .error (.otherExn m) => ([c1, ⟨"Token validation", false, "Unexpected error: " ++ m⟩], none)
  | .ok jwks =>
  let c2 : Check := ⟨"Fetch JWKS public keys", true, ""⟩
  match decode_token_unverified loads token with
  | .error e => ([c1, c2, ⟨"Token validation", false, "Unexpected error: " ++ jwtErrMsg e⟩], none)
  | .ok (header, _) =>
  match header with
  | .obj hfs =>
    let kidOpt := jget hfs "kid"
    if jsonTruthyOpt kidOpt = false then
      ([c1, c2, ⟨"Token has key ID (kid)", false,
        "No " ++ apos ++ "kid" ++ apos ++ " in token header"⟩], none)
    else
      let kid := kidOpt.getD Json.null
      let c3 : Check := ⟨"Token has key ID (kid)", true, ""⟩
      match jwks with
      | .obj jfs =>
        let keysVal := (jget jfs "keys").getD (Json.arr [])
        match findMatchingKey kid keysVal with
        | .error m =>
            ([c1, c2, c3, ⟨"Token validation", false, "Unexpected error: " ++ m⟩], none)
        | .ok none =>
            ([c1, c2, c3, ⟨"Find matching public key", false,
              "No key found for kid=" ++ jsonShow kid⟩], none)
        | .ok (some matching_key) =>
          let c4 : Check := ⟨"Find matching public key", true, ""⟩
          match fromJwk matching_key with
          | .error m =>
              ([c1, c2, c3, c4, ⟨"Token validation", false, "Unexpected error: " ++ m⟩], none)
          | .ok public_key =>
            let c5 : Check := ⟨"Build RSA public key", true, ""⟩
            let expected_audience := "api://" ++ client_id
            let valid_issuers :=
              ["https://sts.windows.net/" ++ tenant_id ++ "/",
               "https://login.microsoftonline.com/" ++ tenant_id ++ "/v2.0"]
            match jwtDecode public_key ["RS256"] expected_audience valid_issuers with
            | .ok payload =>
                ([c1, c2, c3, c4, c5,
                  ⟨"Verify signature (RS256)", true, ""⟩,
                  ⟨"Verify expiration (exp)", true, ""⟩,
                  ⟨"Verify issuer (iss)", true, ""⟩,
                  ⟨"Verify audience (aud=" ++ expected_audience ++ ")", true, ""⟩],
                 some payload)
            | .expired =>
                ([c1, c2, c3, c4, c5, ⟨"Verify expiration (exp)", false, "Token has expired"⟩], none)
            | .invalidAudience m =>
                ([c1, c2, c3, c4, c5, ⟨"Verify audience (aud)", false, m⟩], none)
            | .invalidIssuer m =>
                ([c1, c2, c3, c4, c5, ⟨"Verify issuer (iss)", false, m⟩], none)
            | .invalidSignature =>
                ([c1, c2, c3, c4, c5, ⟨"Verify signature (RS256)", false, "Signature mismatch"⟩], none)
            | .decodeError m =>
                ([c1, c2, c3, c4, c5, ⟨"Decode token", false, m⟩], none)
            | .otherExn m =>
                ([c1, c2, c3, c4, c5, ⟨"Token validation", false, "Unexpected error: " ++ m⟩], none)
      | _ => ([c1, c2, c3, ⟨"Token validation", false, "Unexpected error: AttributeError"⟩], none)
  | _ => ([c1, c2, ⟨"Token validation", false, "Unexpected error: AttributeError"⟩], none)

end TestSSO

/-! ## `bearer-mcp-server/client/test_bearer_client.py` -/

namespace TestBearerClient

/-- State of an `MCPBearerClient` instance. -/
structure MCPBearerClient where
  endpoint : String
  mcp_url : String
  token : String
  request_id : Nat

/-- `MCPBearerClient.__init__`. -/
def MCPBearerClient.init (endpoint token : String) : MCPBearerClient :=
  let e := rstripSlash endpoint
  ⟨e, e ++ "/mcp", token, 0⟩

/-- The JSON-RPC payload built inside `MCPBearerClient._call` (after the
`request_id` increment, so `rid` is the incremented id). -/
def buildPayload (method : String) (rid : Nat) (params : Option (List (String × Json))) :
    List (String × Json) :=
  let payload := [("jsonrpc", Json.str "2.0"), ("method", Json.str method),
                  ("id", Json.num (rid : Int))]
  match params with
  | some p => if !p.isEmpty then payload ++ [("params", Json.obj p)] else payload
  | none => payload

/-- The headers built inside `MCPBearerClient._call`. -/
def callHeaders (token : String) : List (String × String) :=
  [("Content-Type", "application/json"), ("Authorization", "Bearer " ++ token)]

/-- `MCPBearerClient._call`: increment `request_id`, build payload and
headers, post, then map status 401/403 to the authentication /
authorization exceptions, other 4xx/5xx through `raise_for_status`, and
return `response.json()` (raising `json` decode errors) otherwise.
`post` is the `requests.post` oracle. -/
def MCPBearerClient.call (c : MCPBearerClient) (method : String)
    (params : Option (List (String × Json)))
    (post : List (String × Json) → List (String × String) → PostBehavior) :
    MCPBearerClient × Except String Json :=
  let c' := { c with request_id := c.request_id + 1 }
  let payload := buildPayload method c'.request_id params
  let headers := callHeaders c.token
  (c',
   match post payload headers with
   | .resp r =>
       if r.statusCode = 401 then
         .error "Authentication failed: Invalid or expired token"
       else if r.statusCode = 403 then
         .error "Authorization failed: Insufficient permissions"
       else if 400 ≤ r.statusCode ∧ r.statusCode < 600 then
         .error ("HTTPError " ++ toString r.statusCode)
       else
         match r.bodyJson with
         | some j => .ok j
         | none => .error "JSONDecodeError"
   | .connError => .error "ConnectionError"
   | .timeout => .error "Timeout"
   | .otherExn m => .error m)

/-- `_call` with the post behaviour fixed (the response does not depend on
the request in one exchange). -/
def MCPBearerClient.callB (c : MCPBearerClient) (method : String)
    (params : Option (List (String × Json))) (b : PostBehavior) :
    MCPBearerClient × Except String Json :=
  c.call method params (fun _ _ => b)

/-- The ids placed in the payloads of `k` successive `_call`s starting from
client state `c`. -/
def MCPBearerClient.callIds (c : MCPBearerClient) : Nat → List Nat
  | 0 => []
  | k + 1 =>
      (c.request_id + 1) ::
      MCPBearerClient.callIds { c with request_id := c.request_id + 1 } k

/-- `get_azure_token` of `test_bearer_client.py`: one
`acquire_token_for_client` call with scope `{audience or api://client_id}/.default`;
return `result["access_token"]` when present, otherwise raise with the
`error_description` / `error` / "Unknown error" fallback chain. -/
def get_azure_token (tenant_id client_id client_secret : String)
    (audience : Option String)
    (acquire : List String → List (String × String)) : Except String String :=
  let _authority := "https://login.microsoftonline.com/" ++ tenant_id
  let _credential := client_secret
  let scope_base :=
    match audience with
    | some a => if !a.isEmpty then a else "api://" ++ client_id
    | none => "api://" ++ client_id
  let scopes := [scope_base ++ "/.default"]
  let result := acquire scopes
  match lookupS result "access_token" with
  | none =>
      .error ("Failed to acquire token: " ++
        ((lookupS result "error_description").getD
          ((lookupS result "error").getD "Unknown error")))
  | some token => .ok token

/-- The scope list `get_azure_token` passes to `acquire_token_for_client`. -/
def azureScopes (client_id : String) (audience : Option String) : List String :=
  let scope_base :=
    match audience with
    | some a => if !a.isEmpty then a else "api://" ++ client_id
    | none => "api://" ++ client_id
  [scope_base ++ "/.default"]

/-- Which token source `get_token_from_env` selects. -/
inductive TokenSource where
  | direct (token : String)
  | azure (tenant_id client_id client_secret : String) (audience : Option String)
  | noneConfigured
deriving DecidableEq

/-- The decision structure of `get_token_from_env` in
`test_bearer_client.py`: a truthy `MCP_BEARER_TOKEN` wins, otherwise Azure
credentials when all three are truthy, otherwise `raise ValueError`. -/
def get_token_from_env (env : Env) : TokenSource :=
  let token := env "MCP_BEARER_TOKEN"
  if envTruthy token then .direct (token.getD "")
  else
    let tenant_id := env "AZURE_TENANT_ID"
    let client_id := env "AZURE_CLIENT_ID"
    let client_secret := env "AZURE_CLIENT_SECRET"
    let audience := env "AZURE_AUDIENCE"
    if envTruthy tenant_id && envTruthy client_id && envTruthy client_secret then
      .azure (tenant_id.getD "") (client_id.getD "") (client_secret.getD "") audience
    else .noneConfigured

/-- `get_token_from_env` composed with its Azure branch: the value the
caller sees (`.error` is a raised exception; the unconfigured case raises
`ValueError`). -/
def getTokenResult (env : Env)
    (acquire : List String → List (String × String)) : Except String String :=
  match get_token_from_env env with
  | .direct t => .ok t
  | .azure t c s a => get_azure_token t c s a acquire
  | .noneConfigured => .error "ValueError: No authentication configured"

/-- Behaviours of the five HTTP exchanges performed by `run_tests`. -/
structure BearerBehaviors where
  b1 : PostBehavior
  b2 : PostBehavior
  b3 : PostBehavior
  b4 : PostBehavior
  b5 : PostBehavior

/-- Body of `run_tests` Test 1 (`client.initialize()` plus the two printed
`result.get(..).get(..)` chains); an error is an exception reaching the
`except` handler. -/
def bearerTest1Body (callRes : Except String Json) : Except String Unit := do
  let result ← callRes
  let r1 ← pyGet result "result" (Json.obj [])
  let _ ← pyGet r1 "protocolVersion" (Json.str "unknown")
  let r2 ← pyGet result "result" (Json.obj [])
  let si ← pyGet r2 "serverInfo" (Json.obj [])
  let _ ← pyGet si "name" (Json.str "unknown")
  pure ()

/-- Body of Test 2 (`client.list_tools()`, `len(tools)`, tool loop). -/
def bearerTest2Body (callRes : Except String Json) : Except String Unit := do
  let result ← callRes
  let r1 ← pyGet result "result" (Json.obj [])
  let tools ← pyGet r1 "tools" (Json.arr [])
  let _ ← pyLen tools
  iterToolsGet tools

/-- Body of Test 3 (`client.get_schema()`; `content[0].get("text","")` and
`split`/`strip` on the schema text when `content` is truthy). -/
def bearerTest3Body (callRes : Except String Json) : Except String Unit := do
  let result ← callRes
  let r1 ← pyGet result "result" (Json.obj [])
  let content ← pyGet r1 "content" (Json.arr [])
  if content.truthy then
    match content with
    | .arr (first :: _) => do
        let text ← pyGet first "text" (Json.str "")
        match text with
        | .str _ => pure ()
        | _ => .error "AttributeError"
    | _ => .error "TypeError"
  else pure ()

/-- Body of Test 4 (`read_cypher` of the probe query;
`content[0].get("text","")[:100]` when `content` is truthy). -/
def bearerTest4Body (callRes : Except String Json) : Except String Unit := do
  let result ← callRes
  let r1 ← pyGet result "result" (Json.obj [])
  let content ← pyGet r1 "content" (Json.arr [])
  if content.truthy then
    match content with
    | .arr (first :: _) => do
        let text ← pyGet first "text" (Json.str "")
        if sliceable text then pure () else .error "TypeError"
    | _ => .error "TypeError"
  else pure ()

/-- Body of Test 5 (node-count query; `content[0].get("text","")`). -/
def bearerTest5Body (callRes : Except String Json) : Except String Unit := do
  let result ← callRes
  let r1 ← pyGet result "result" (Json.obj [])
  let content ← pyGet r1 "content" (Json.arr [])
  if content.truthy then
    match content with
    | .arr (first :: _) => do
        let _ ← pyGet first "text" (Json.str "")
        pure ()
    | _ => .error "TypeError"
  else pure ()

/-- `run_tests` of `test_bearer_client.py`: Tests 1, 2 and 4 abort with
`return False` when their `try` body raises; Tests 3 and 5 swallow
exceptions and continue; all five bodies are guarded, so the function
itself never lets an exception escape (its `Except` layer). -/
def run_tests (client : MCPBearerClient) (bs : BearerBehaviors) : Except String Bool :=
  let (c1, r1) := client.callB "initialize"
      (some [("protocolVersion", Json.str "2024-11-05"),
             ("capabilities", Json.obj []),
             ("clientInfo", Json.obj [("name", Json.str "bearer-test-client"),
                                      ("version", Json.str "1.0.0")])]) bs.b1
  match bearerTest1Body r1 with
  | .error _ => .ok false
  | .ok _ =>
    let (c2, r2) := c1.callB "tools/list" none bs.b2
    match bearerTest2Body r2 with
    | .error _ => .ok false
    | .ok _ =>
      let (c3, r3) := c2.callB "tools/call"
          (some [("name", Json.str "get-schema"), ("arguments", Json.obj [])]) bs.b3
      match bearerTest3Body r3 with
      | _ =>
        let (c4, r4) := c3.callB "tools/call"
            (some [("name", Json.str "read-cypher"),
                   ("arguments", Json.obj [("query",
                     Json.str ("RETURN 1 AS test, " ++ apos ++ "bearer-auth-works" ++ apos ++
                               " AS message"))])]) bs.b4
        match bearerTest4Body r4 with
        | .error _ => .ok false
        | .ok _ =>
          let (_, r5) := c4.callB "tools/call"
              (some [("name", Json.str "read-cypher"),
                     ("arguments", Json.obj [("query",
                       Json.str "MATCH (n) RETURN count(n) AS nodeCount")])]) bs.b5
          match bearerTest5Body r5 with
          | _ => .ok true

/-- The final `sys.exit(0 if success else 1)` of `main`. -/
def main_exit (success : Bool) : Nat :=
  if success then 0 else 1

end TestBearerClient

/-! ## `local_http_validation/test_http_mode.py` -/

namespace TestHttpMode

/-- State of an `MCPHttpClient` instance. -/
structure MCPHttpClient where
  endpoint : String
  mcp_url : String
  request_id : Nat

/-- `MCPHttpClient.__init__`. -/
def MCPHttpClient.init (endpoint : String) : MCPHttpClient :=
  let e := rstripSlash endpoint
  ⟨e, e ++ "/mcp", 0⟩

/-- The JSON-RPC payload built inside `MCPHttpClient._call` (`rid` is the
value returned by `_next_id`). -/
def buildPayload (method : String) (rid : Nat) (params : Option (List (String × Json))) :
    List (String × Json) :=
  let payload := [("jsonrpc", Json.str "2.0"), ("method", Json.str method),
                  ("id", Json.num (rid : Int))]
  match params with
  | some p => if !p.isEmpty then payload ++ [("params", Json.obj p)] else payload
  | none => payload

/-- The headers built inside `MCPHttpClient._call`
(`Authorization` added only for a truthy `auth_header`). -/
def callHeaders (auth_header : Option String) : List (String × String) :=
  let headers := [("Content-Type", "application/json")]
  match auth_header with
  | some a => if !a.isEmpty then headers ++ [("Authorization", a)] else headers
  | none => headers

/-- The dict returned by `MCPHttpClient._call`. -/
structure CallRecord where
  status_code : Nat
  headers : List (String × String)
  body : String
  json : Option Json

/-- `MCPHttpClient._call`: increment `request_id` via `_next_id`, build
payload and headers, post, and package the response as a dict — every
status code included; only a raising `requests.post` propagates. -/
def MCPHttpClient.call (c : MCPHttpClient) (method : String)
    (params : Option (List (String × Json))) (auth_header : Option String)
    (post : List (String × Json) → List (String × String) → PostBehavior) :
    MCPHttpClient × Except String CallRecord :=
  let c' := { c with request_id := c.request_id + 1 }
  let payload := buildPayload method c'.request_id params
  let headers := callHeaders auth_header
  (c',
   match post payload headers with
   | .resp r => .ok ⟨r.statusCode, r.headers, r.bodyText, r.bodyJson⟩
   | .connError => .error "ConnectionError"
   | .timeout => .error "Timeout"
   | .otherExn m => .error m)

/-- `_call` with the post behaviour fixed. -/
def MCPHttpClient.callB (c : MCPHttpClient) (method : String)
    (params : Option (List (String × Json))) (auth_header : Option String)
    (b : PostBehavior) : MCPHttpClient × Except String CallRecord :=
  c.call method params auth_header (fun _ _ => b)

/-- The ids placed in the payloads of `k` successive `_call`s starting from
client state `c`. -/
def MCPHttpClient.callIds (c : MCPHttpClient) : Nat → List Nat
  | 0 => []
  | k + 1 =>
      (c.request_id + 1) ::
      MCPHttpClient.callIds { c with request_id := c.request_id + 1 } k

/-- `MCPHttpClient.health_check`: a direct `requests.post` (no `_call`);
catches only `ConnectionError` and `Timeout` (returning `False`); any
other exception propagates; a response passes iff its status is 200, 401
or 403. -/
def health_check (b : PostBehavior) : Except String Bool :=
  match b with
  | .resp r => .ok (r.statusCode = 200 || r.statusCode = 401 || r.statusCode = 403)
  | .connError => .ok false
  | .timeout => .ok false
  | .otherExn m => .error m

/-- The credentials string of `test_basic_auth`:
`base64.b64encode(f"{username}:{password}".encode()).decode()`. -/
def test_basic_auth_credentials (username password : String) : String :=
  b64OfString (username ++ ":" ++ password)

/-- The `auth_header` passed by `test_basic_auth`. -/
def test_basic_auth_header (username password : String) : String :=
  "Basic " ++ test_basic_auth_credentials username password

/-- The `auth_header` passed by `test_bearer_auth`. -/
def test_bearer_auth_header (token : String) : String :=
  "Bearer " ++ token

/-- `TestResults`. -/
structure TestResults where
  passed : Nat
  failed : Nat
  skipped : Nat
deriving DecidableEq

/-- The three recording outcomes of one test. -/
inductive TRes where
  | pass
  | fail
  | skip
deriving DecidableEq

/-- `record_pass` / `record_fail` / `record_skip`. -/
def TestResults.record : TestResults → TRes → TestResults
  | r, .pass => { r with passed := r.passed + 1 }
  | r, .fail => { r with failed := r.failed + 1 }
  | r, .skip => { r with skipped := r.skipped + 1 }

/-- Test 2 (request without authentication): pass iff the call returned and
its status is 401; an exception records a failure. -/
def test2Outcome (callRes : Except String CallRecord) : TRes :=
  match callRes with
  | .error _ => .fail
  | .ok r => if r.status_code = 401 then .pass else .fail

/-- The 200-branch body shared by Tests 3 and 4
(`result = response["json"].get("result", {}); tools = result.get("tools", []);
len(tools)` under `if response["json"]:`). -/
def tools200Body (j : Option Json) : Except String Unit :=
  match j with
  | none => .ok ()
  | some jv =>
      if jv.truthy then
        match jv with
        | .obj jfs => do
            let result := (jget jfs "result").getD (Json.obj [])
            let tools ← pyGet result "tools" (Json.arr [])
            let _ ← pyLen tools
            pure ()
        | _ => .error "AttributeError"
      else .ok ()

/-- Test 3 (bearer auth), inner `try` outcome: 200 passes (unless the body
inspection raises), 401 passes, anything else fails; an exception fails. -/
def test3Outcome (callRes : Except String CallRecord) : TRes :=
  match callRes with
  | .error _ => .fail
  | .ok r =>
      if r.status_code = 200 then
        match tools200Body r.json with
        | .ok _ => .pass
        | .error _ => .fail
      else if r.status_code = 401 then .pass
      else .fail

/-- Test 4 (basic auth), inner `try` outcome — same structure as Test 3. -/
def test4Outcome (callRes : Except String CallRecord) : TRes :=
  match callRes with
  | .error _ => .fail
  | .ok r =>
      if r.status_code = 200 then
        match tools200Body r.json with
        | .ok _ => .pass
        | .error _ => .fail
      else if r.status_code = 401 then .pass
      else .fail

/-- The `if response["status_code"] == 200 and response["json"]:` body of
Test 5 (initialize): an `"error"` key fails, otherwise the
protocol/serverInfo prints run and it passes. -/
def test5Body (jv : Json) : Except String TRes :=
  match jv with
  | .obj jfs =>
      let result := (jget jfs "result").getD (Json.obj [])
      if (jget jfs "error").isSome then do
        let _ ← pyGet ((jget jfs "error").getD Json.null) "message" (Json.str "unknown")
        pure TRes.fail
      else do
        let _ ← pyGet result "protocolVersion" (Json.str "unknown")
        let si ← pyGet result "serverInfo" (Json.obj [])
        let _ ← pyGet si "name" (Json.str "unknown")
        let _ ← pyGet si "version" (Json.str "unknown")
        pure TRes.pass
  | _ => .error "AttributeError"

/-- Test 5, inner `try` outcome. -/
def test5Outcome (callRes : Except String CallRecord) : TRes :=
  match callRes with
  | .error _ => .fail
  | .ok r =>
      if r.status_code = 200 && jsonTruthyOpt r.json then
        match test5Body (r.json.getD Json.null) with
        | .ok o => o
        | .error _ => .fail
      else if r.status_code = 401 then .pass
      else .fail

/-- The 200-with-truthy-json body of Test 6 (list tools). -/
def test6Body (jv : Json) : Except String TRes :=
  match jv with
  | .obj jfs =>
      let result := (jget jfs "result").getD (Json.obj [])
      if (jget jfs "error").isSome then do
        let _ ← pyGet ((jget jfs "error").getD Json.null) "message" (Json.str "unknown")
        pure TRes.fail
      else do
        let tools ← pyGet result "tools" (Json.arr [])
        let _ ← pyLen tools
        let _ ← iterToolsGet tools
        pure TRes.pass
  | _ => .error "AttributeError"

/-- Test 6, inner `try` outcome. -/
def test6Outcome (callRes : Except String CallRecord) : TRes :=
  match callRes with
  | .error _ => .fail
  | .ok r =>
      if r.status_code = 200 && jsonTruthyOpt r.json then
        match test6Body (r.json.getD Json.null) with
        | .ok o => o
        | .error _ => .fail
      else if r.status_code = 401 then .pass
      else .fail

/-- The 200-with-truthy-json body of Test 7 (get-schema): the `"error" in`
membership test runs first, then the error or result branch. -/
def test7Body (jv : Json) : Except String TRes := do
  let hasErr ← pyIn "error" jv
  if hasErr then
    match jv with
    | .obj jfs => do
        let _ ← pyGet ((jget jfs "error").getD Json.null) "message" (Json.str "unknown")
        pure TRes.fail
    | _ => .error "TypeError"
  else
    match jv with
    | .obj jfs => do
        let result := (jget jfs "result").getD (Json.obj [])
        let _ ← pyGet result "content" (Json.arr [])
        pure TRes.pass
    | _ => .error "AttributeError"

/-- Test 7, inner `try` outcome. -/
def test7Outcome (callRes : Except String CallRecord) : TRes :=
  match callRes with
  | .error _ => .fail
  | .ok r =>
      if r.status_code = 200 && jsonTruthyOpt r.json then
        match test7Body (r.json.getD Json.null) with
        | .ok o => o
        | .error _ => .fail
      else if r.status_code = 401 then .pass
      else .fail

/-- The `auth_header` recomputed inside Tests 5-7. -/
def authHeaderFor (bearer_token username password : Option String) : String :=
  if bearer_token.isSome then "Bearer " ++ bearer_token.getD ""
  else "Basic " ++ b64OfString ((username.getD "") ++ ":" ++ (password.getD ""))

/-- Behaviours of the (at most) seven HTTP exchanges of `run_tests`, in
test order. -/
structure HttpBehaviors where
  b1 : PostBehavior
  b2 : PostBehavior
  b3 : PostBehavior
  b4 : PostBehavior
  b5 : PostBehavior
  b6 : PostBehavior
  b7 : PostBehavior

/-- `run_tests` of `test_http_mode.py`.  Test 1 is the unguarded
`health_check` (its non-`ConnectionError`/`Timeout` exceptions propagate;
a `False` health check records a failure and returns early); Tests 2-7 are
guarded `try`/`except` blocks whose skip conditions mirror the source. -/
def run_tests (bearer_token username password : Option String) (http_only : Bool)
    (endpoint : String) (bs : HttpBehaviors) : Except String TestResults :=
  let has_bearer := bearer_token.isSome
  let has_basic := username.isSome && password.isSome
  let client := MCPHttpClient.init endpoint
  let results : TestResults := ⟨0, 0, 0⟩
  match health_check bs.b1 with
  | .error e => .error e
  | .ok false => .ok (results.record .fail)
  | .ok true =>
    let results := results.record .pass
    let (client, call2) := client.callB "tools/list" none none bs.b2
    let results := results.record (test2Outcome call2)
    let (client, o3) :=
      if !has_bearer then (client, TRes.skip)
      else
        let (c, res) := client.callB "tools/list" none
          (some (test_bearer_auth_header (bearer_token.getD ""))) bs.b3
        (c, test3Outcome res)
    let results := results.record o3
    let (client, o4) :=
      if !has_basic then (client, TRes.skip)
      else if http_only then (client, TRes.skip)
      else
        let (c, res) := client.callB "tools/list" none
          (some (test_basic_auth_header (username.getD "") (password.getD ""))) bs.b4
        (c, test4Outcome res)
    let results := results.record o4
    let (client, o5) :=
      if http_only then (client, TRes.skip)
      else if !has_bearer && !has_basic then (client, TRes.skip)
      else
        let auth := authHeaderFor bearer_token username password
        let (c, res) := client.callB "initialize"
          (some [("protocolVersion", Json.str "2024-11-05"),
                 ("capabilities", Json.obj []),
                 ("clientInfo", Json.obj [("name", Json.str "http-mode-validator"),
                                          ("version", Json.str "1.0.0")])])
          (some auth) bs.b5
        (c, test5Outcome res)
    let results := results.record o5
    let (client, o6) :=
      if http_only then (client, TRes.skip)
      else if !has_bearer && !has_basic then (client, TRes.skip)
      else
        let auth := authHeaderFor bearer_token username password
        let (c, res) := client.callB "tools/list" none (some auth) bs.b6
        (c, test6Outcome res)
    let results := results.record o6
    let (_, o7) :=
      if http_only then (client, TRes.skip)
      else if !has_bearer && !has_basic then (client, TRes.skip)
      else
        let auth := authHeaderFor bearer_token username password
        let (c, res) := client.callB "tools/call"
          (some [("name", Json.str "get-schema"), ("arguments", Json.obj [])])
          (some auth) bs.b7
        (c, test7Outcome res)
    let results := results.record o7
    .ok results

/-- `get_azure_token` of `test_http_mode.py` (same logic as the bearer
client's). -/
def get_azure_token (tenant_id client_id client_secret : String)
    (audience : Option String)
    (acquire : List String → List (String × String)) : Except String String :=
  let _authority := "https://login.microsoftonline.com/" ++ tenant_id
  let _credential := client_secret
  let scope_base :=
    match audience with
    | some a => if !a.isEmpty then a else "api://" ++ client_id
    | none => "api://" ++ client_id
  let scopes := [scope_base ++ "/.default"]
  let result := acquire scopes
  match lookupS result "access_token" with
  | none =>
      .error ("Failed to acquire token: " ++
        ((lookupS result "error_description").getD
          ((lookupS result "error").getD "Unknown error")))
  | some token => .ok token

/-- The scope list `get_azure_token` passes to `acquire_token_for_client`. -/
def azureScopes (client_id : String) (audience : Option String) : List String :=
  let scope_base :=
    match audience with
    | some a => if !a.isEmpty then a else "api://" ++ client_id
    | none => "api://" ++ client_id
  [scope_base ++ "/.default"]

/-- Which token source `get_token_from_env` selects (decision structure of
the `test_http_mode.py` version; the fallthrough returns `None`). -/
def get_token_from_env (env : Env) : TestBearerClient.TokenSource :=
  let token := env "MCP_BEARER_TOKEN"
  if envTruthy token then .direct (token.getD "")
  else
    let tenant_id := env "AZURE_TENANT_ID"
    let client_id := env "AZURE_CLIENT_ID"
    let client_secret := env "AZURE_CLIENT_SECRET"
    let audience := env "AZURE_AUDIENCE"
    if envTruthy tenant_id && envTruthy client_id && envTruthy client_secret then
      .azure (tenant_id.getD "") (client_id.getD "") (client_secret.getD "") audience
    else .noneConfigured

/-- `get_token_from_env` composed with its Azure branch (an `.error` is a
raised exception propagating out of `get_azure_token`; the unconfigured
case returns `None`). -/
def getTokenResult (env : Env)
    (acquire : List String → List (String × String)) : Except String (Option String) :=
  match get_token_from_env env with
  | .direct t => .ok (some t)
  | .azure t c s a => (get_azure_token t c s a acquire).map some
  | .noneConfigured => .ok none

/-- The final `sys.exit(0 if results.failed == 0 else 1)` of `main`. -/
def main_exit (results : TestResults) : Nat :=
  if results.failed = 0 then 0 else 1

end TestHttpMode

/-! ## `simple-mcp-server/client/test_client.py` -/

namespace TestClient

/-- The JSON-RPC payload built inside `make_mcp_request` (its `request_id`
is the constant 1). -/
def buildPayload (method : String) (params : Option (List (String × Json))) :
    List (String × Json) :=
  let request_id : Int := 1
  let payload := [("jsonrpc", Json.str "2.0"), ("method", Json.str method),
                  ("id", Json.num request_id)]
  match params with
  | some p => if !p.isEmpty then payload ++ [("params", Json.obj p)] else payload
  | none => payload

/-- The headers built inside `make_mcp_request`. -/
def mkHeaders (api_key : String) : List (String × String) :=
  [("Content-Type", "application/json"),
   ("Authorization", "Bearer " ++ api_key),
   ("Accept", "application/json")]

/-- Behaviour of one `urllib.request.urlopen` call: a successful (2xx)
response whose body may or may not parse as JSON, an
`urllib.error.HTTPError` (any non-success status, 401/403 included), or an
`urllib.error.URLError`. -/
inductive UrlOpenBehavior where
  | success (body : String) (json : Except String Json)
  | httpError (code : Nat) (reason : String) (body : String)
  | urlError (reason : String)

/-- `make_mcp_request` of `test_client.py`: build payload and headers, post;
return the parsed JSON body on success, and an `{"error": {...}}` dict for
`HTTPError` (code = HTTP status), `URLError` (code -1) and
`JSONDecodeError` (code -2).  It never raises. -/
def make_mcp_request (endpoint api_key method : String)
    (params : Option (List (String × Json)))
    (urlopen : String → List (String × Json) → List (String × String) → UrlOpenBehavior) :
    Json :=
  let payload := buildPayload method params
  let headers := mkHeaders api_key
  match urlopen endpoint payload headers with
  | .success _ (.ok j) => j
  | .success _ (.error e) =>
      Json.obj [("error", Json.obj
        [("code", Json.num (-2)),
         ("message", Json.str ("Invalid JSON response: " ++ e))])]
  | .httpError code reason body =>
      Json.obj [("error", Json.obj
        [("code", Json.num (code : Int)),
         ("message", Json.str ("HTTP " ++ toString code ++ ": " ++ reason)),
         ("data", Json.str body)])]
  | .urlError reason =>
      Json.obj [("error", Json.obj
        [("code", Json.num (-1)),
         ("message", Json.str ("Connection error: " ++ reason))])]

/-- The summary / exit logic at the end of `main` (given the recorded
`(name, result)` pairs): exit 0 when all passed, else exit 1 when the
failed-name list is non-empty, else exit 0. -/
def main_exit (results : List (String × Bool)) : Nat :=
  let passed := (results.filter (fun r => r.2)).length
  let total := results.length
  if passed = total then 0
  else
    let failed := (results.filter (fun r => !r.2)).map (fun r => r.1)
    if !failed.isEmpty then 1 else 0

end TestClient

/-! ## Lemmas: base64 round trip -/

theorem b64DecChar_encChar_std : ∀ n, n < 64 → b64DecChar '+' '/' (b64EncChar '+' '/' n) = some n := by
  decide

theorem b64DecChar_encChar_url : ∀ n, n < 64 → b64DecChar '-' '_' (b64EncChar '-' '_' n) = some n := by
  decide

theorem b64EncChar_ne_eq_std : ∀ n, n < 64 → b64EncChar '+' '/' n ≠ '=' := by
  decide

theorem b64EncChar_ne_eq_url : ∀ n, n < 64 → b64EncChar '-' '_' n ≠ '=' := by
  decide

theorem b64EncChar_ne_dot_url : ∀ n, n < 64 → b64EncChar '-' '_' n ≠ '.' := by
  decide

/-- Decoding inverts encoding, for any alphabet whose character table is
injective on 6-bit values and avoids `=`. -/
theorem b64_decode_encode (t62 t63 : Char)
    (hdec : ∀ n, n < 64 → b64DecChar t62 t63 (b64EncChar t62 t63 n) = some n)
    (hne : ∀ n, n < 64 → b64EncChar t62 t63 n ≠ '=') :
    ∀ bs : List Nat, (∀ x ∈ bs, x < 256) →
      b64DecodeChunks t62 t63 (b64EncodeChunks t62 t63 bs) = some bs := by
  have key : ∀ fuel bs, List.length bs ≤ fuel → (∀ x ∈ bs, x < 256) →
      b64DecodeChunks t62 t63 (b64EncodeChunks t62 t63 bs) = some bs := by
    intro fuel
    induction fuel with
    | zero =>
        intro bs hlen _
        have hnil : bs = [] := List.eq_nil_of_length_eq_zero (Nat.le_zero.mp hlen)
        subst hnil
        rfl
    | succ fuel ih =>
        intro bs hlen hmem
        match bs with
        | [] => rfl
        | [a] =>
            have ha : a < 256 := hmem a (by simp)
            simp only [b64EncodeChunks, b64DecodeChunks]
            rw [if_pos (by simp)]
            rw [hdec (a / 4) (by omega), hdec (a % 4 * 16) (by omega)]
            simp only [Option.some.injEq, List.cons.injEq, and_true]
            omega
        | [a, b] =>
            have ha : a < 256 := hmem a (by simp)
            have hb : b < 256 := hmem b (by simp)
            simp only [b64EncodeChunks, b64DecodeChunks]
            rw [if_neg (by
              intro hcon
              exact hne (b % 16 * 4) (by omega) hcon.1)]
            rw [if_pos (by simp)]
            rw [hdec (a / 4) (by omega), hdec (a % 4 * 16 + b / 16) (by omega),
                hdec (b % 16 * 4) (by omega)]
            simp only [Option.some.injEq, List.cons.injEq, and_true]
            omega
        | a :: b :: c :: rest =>
            have ha : a < 256 := hmem a (by simp)
            have hb : b < 256 := hmem b (by simp)
            have hc : c < 256 := hmem c (by simp)
            have hrest : ∀ x ∈ rest, x < 256 := by
              intro x hx
              exact hmem x (by simp [hx])
            have hlen' : List.length rest ≤ fuel := by
              simp only [List.length_cons] at hlen
              omega
            simp only [b64EncodeChunks, b64DecodeChunks]
            rw [if_neg (by
              intro hcon
              exact hne (b % 16 * 4 + c / 64) (by omega) hcon.1)]
            rw [if_neg (by
              intro hcon
              exact hne (c % 64) (by omega) hcon.1)]
            rw [hdec (a / 4) (by omega), hdec (a % 4 * 16 + b / 16) (by omega),
                hdec (b % 16 * 4 + c / 64) (by omega), hdec (c % 64) (by omega),
                ih rest hlen' hrest]
            simp only [Option.some.injEq, List.cons.injEq, and_true]
            omega
  intro bs hmem
  exact key (List.length bs) bs (Nat.le_refl _) hmem

/-- Standard-alphabet round trip. -/
theorem b64_roundtrip_std (bs : List Nat) (h : ∀ x ∈ bs, x < 256) :
    b64DecodeChunks '+' '/' (b64EncodeChunks '+' '/' bs) = some bs :=
  b64_decode_encode '+' '/' b64DecChar_encChar_std b64EncChar_ne_eq_std bs h

/-- URL-safe-alphabet round trip. -/
theorem b64_roundtrip_url (bs : List Nat) (h : ∀ x ∈ bs, x < 256) :
    b64DecodeChunks '-' '_' (b64EncodeChunks '-' '_' bs) = some bs :=
  b64_decode_encode '-' '_' b64DecChar_encChar_url b64EncChar_ne_eq_url bs h

/-! ## Lemmas: UTF-8 bytes, padding, splitting -/

theorem utf8Char_lt_256 (c : Char) : ∀ x ∈ utf8Char c, x < 256 := by
  have hv : c.toNat < 1114112 := by
    have h := c.valid
    rcases h with h | ⟨_, h2⟩
    · exact Nat.lt_trans h (by norm_num)
    · exact h2
  intro x hx
  simp only [utf8Char] at hx
  split at hx
  case isTrue h1 =>
    simp only [List.mem_singleton] at hx
    omega
  case isFalse h1 =>
    split at hx
    case isTrue h2 =>
      simp only [List.mem_cons, List.not_mem_nil, or_false] at hx
      omega
    case isFalse h2 =>
      split at hx
      case isTrue h3 =>
        simp only [List.mem_cons, List.not_mem_nil, or_false] at hx
        omega
      case isFalse h3 =>
        simp only [List.mem_cons, List.not_mem_nil, or_false] at hx
        omega

theorem utf8Bytes_lt_256 (s : String) : ∀ x ∈ utf8Bytes s, x < 256 := by
  intro x hx
  unfold utf8Bytes at hx
  rw [List.mem_flatten] at hx
  rcases hx with ⟨l, hl, hxl⟩
  rw [List.mem_map] at hl
  rcases hl with ⟨c, _, rfl⟩
  exact utf8Char_lt_256 c x hxl

namespace TestSSO

/-- `addPadding` in closed form: append `(4 - len mod 4) mod 4` equals
signs; the result's length is a multiple of 4. -/
theorem addPadding_spec (cs : List Char) :
    addPadding cs = cs ++ List.replicate ((4 - cs.length % 4) % 4) '=' ∧
    (addPadding cs).length % 4 = 0 := by
  unfold addPadding
  by_cases h : 4 - cs.length % 4 ≠ 4
  · rw [if_pos h]
    have hm : cs.length % 4 < 4 := Nat.mod_lt _ (by omega)
    constructor
    · have : (4 - cs.length % 4) % 4 = 4 - cs.length % 4 := by omega
      rw [this]
    · simp only [List.length_append, List.length_replicate]
      omega
  · rw [if_neg h]
    have h0 : cs.length % 4 = 0 := by omega
    constructor
    · simp [h0]
    · exact h0

theorem addPadding_cons4 (x1 x2 x3 x4 : Char) (l : List Char) :
    addPadding (x1 :: x2 :: x3 :: x4 :: l) = x1 :: x2 :: x3 :: x4 :: addPadding l := by
  unfold addPadding
  simp only [List.length_cons]
  have h4 : (l.length + 1 + 1 + 1 + 1) % 4 = l.length % 4 := by omega
  rw [h4]
  by_cases h : 4 - l.length % 4 ≠ 4
  · rw [if_pos h, if_pos h]
    simp
  · rw [if_neg h, if_neg h]

/-- Re-padding the unpadded encoding gives exactly the padded encoding. -/
theorem addPadding_encodeNoPad (t62 t63 : Char) :
    ∀ bs : List Nat,
      addPadding (b64EncodeNoPad t62 t63 bs) = b64EncodeChunks t62 t63 bs := by
  have key : ∀ fuel bs, List.length bs ≤ fuel →
      addPadding (b64EncodeNoPad t62 t63 bs) = b64EncodeChunks t62 t63 bs := by
    intro fuel
    induction fuel with
    | zero =>
        intro bs hlen
        have hnil : bs = [] := List.eq_nil_of_length_eq_zero (Nat.le_zero.mp hlen)
        subst hnil
        rfl
    | succ fuel ih =>
        intro bs hlen
        match bs with
        | [] => rfl
        | [a] =>
            simp only [b64EncodeNoPad, b64EncodeChunks]
            unfold addPadding
            simp [List.replicate]
        | [a, b] =>
            simp only [b64EncodeNoPad, b64EncodeChunks]
            unfold addPadding
            simp [List.replicate]
        | a :: b :: c :: rest =>
            have hlen' : List.length rest ≤ fuel := by
              simp only [List.length_cons] at hlen
              omega
            simp only [b64EncodeNoPad, b64EncodeChunks]
            rw [addPadding_cons4, ih rest hlen']
  intro bs
  exact key (List.length bs) bs (Nat.le_refl _)

theorem splitOnDot_ne_nil (l : List Char) : splitOnDot l ≠ [] := by
  induction l with
  | nil => simp [splitOnDot]
  | cons c rest ih =>
      unfold splitOnDot
      by_cases h : c = '.'
      · simp [h]
      · rw [if_neg h]
        match hs : splitOnDot rest with
        | [] => exact absurd hs ih
        | p :: ps => simp

theorem splitOnDot_no_dot (l : List Char) (h : '.' ∉ l) : splitOnDot l = [l] := by
  induction l with
  | nil => rfl
  | cons c rest ih =>
      have hc : ¬ c = '.' := by
        intro hcc
        exact h (by simp [hcc])
      have hrest : '.' ∉ rest := by
        intro hmem
        exact h (by simp [hmem])
      unfold splitOnDot
      rw [if_neg hc, ih hrest]

theorem splitOnDot_append (h : List Char) (hh : '.' ∉ h) (rest : List Char) :
    splitOnDot (h ++ '.' :: rest) = h :: splitOnDot rest := by
  induction h with
  | nil =>
      simp only [List.nil_append]
      conv_lhs => rw [splitOnDot]
      rw [if_pos rfl]
  | cons c t ih =>
      have hc : ¬ c = '.' := by
        intro hcc
        exact hh (by simp [hcc])
      have ht : '.' ∉ t := by
        intro hmem
        exact hh (by simp [hmem])
      simp only [List.cons_append]
      conv_lhs => rw [splitOnDot]
      rw [if_neg hc, ih ht]

theorem splitOnDot_three (h m s : List Char) (hh : '.' ∉ h) (hm : '.' ∉ m) (hs : '.' ∉ s) :
    splitOnDot (h ++ '.' :: (m ++ '.' :: s)) = [h, m, s] := by
  rw [splitOnDot_append h hh, splitOnDot_append m hm, splitOnDot_no_dot s hs]

/-- The unpadded URL-safe encoding of bytes contains no `.` character. -/
theorem noPad_no_dot :
    ∀ bs : List Nat, (∀ x ∈ bs, x < 256) → '.' ∉ b64EncodeNoPad '-' '_' bs := by
  have key : ∀ fuel bs, List.length bs ≤ fuel → (∀ x ∈ bs, x < 256) →
      '.' ∉ b64EncodeNoPad '-' '_' bs := by
    intro fuel
    induction fuel with
    | zero =>
        intro bs hlen _
        have hnil : bs = [] := List.eq_nil_of_length_eq_zero (Nat.le_zero.mp hlen)
        subst hnil
        simp [b64EncodeNoPad]
    | succ fuel ih =>
        intro bs hlen hmem
        match bs with
        | [] => simp [b64EncodeNoPad]
        | [a] =>
            have ha : a < 256 := hmem a (by simp)
            simp only [b64EncodeNoPad, List.mem_cons, List.mem_singleton]
            push_neg
            refine ⟨?_, ?_, by simp⟩
            · exact fun hcc => b64EncChar_ne_dot_url (a / 4) (by omega) hcc.symm
            · exact fun hcc => b64EncChar_ne_dot_url (a % 4 * 16) (by omega) hcc.symm
        | [a, b] =>
            have ha : a < 256 := hmem a (by simp)
            have hb : b < 256 := hmem b (by simp)
            simp only [b64EncodeNoPad, List.mem_cons, List.mem_singleton]
            push_neg
            refine ⟨?_, ?_, ?_, by simp⟩
            · exact fun hcc => b64EncChar_ne_dot_url (a / 4) (by omega) hcc.symm
            · exact fun hcc => b64EncChar_ne_dot_url (a % 4 * 16 + b / 16) (by omega) hcc.symm
            · exact fun hcc => b64EncChar_ne_dot_url (b % 16 * 4) (by omega) hcc.symm
        | a :: b :: c :: rest =>
            have ha : a < 256 := hmem a (by simp)
            have hb : b < 256 := hmem b (by simp)
            have hc : c < 256 := hmem c (by simp)
            have hrest : ∀ x ∈ rest, x < 256 := fun x hx => hmem x (by simp [hx])
            have hlen' : List.length rest ≤ fuel := by
              simp only [List.length_cons] at hlen
              omega
            simp only [b64EncodeNoPad, List.mem_cons]
            push_neg
            refine ⟨?_, ?_, ?_, ?_, ih rest hlen' hrest⟩
            · exact fun hcc => b64EncChar_ne_dot_url (a / 4) (by omega) hcc.symm
            · exact fun hcc => b64EncChar_ne_dot_url (a % 4 * 16 + b / 16) (by omega) hcc.symm
            · exact fun hcc => b64EncChar_ne_dot_url (b % 16 * 4 + c / 64) (by omega) hcc.symm
            · exact fun hcc => b64EncChar_ne_dot_url (c % 64) (by omega) hcc.symm
  intro bs hmem
  exact key (List.length bs) bs (Nat.le_refl _) hmem

end TestSSO

namespace TestSSO

/-- Core round trip of `decode_jwt_payload` over an encoded payload placed
between dot-free header and signature segments. -/
theorem decode_jwt_payload_roundtrip {J : Type} (loads : List Nat → Option J)
    (bs : List Nat) (o : J) (h s : List Char)
    (hh : '.' ∉ h) (hs : '.' ∉ s)
    (hbytes : ∀ x ∈ bs, x < 256)
    (hinv : loads bs = some o) :
    decode_jwt_payload loads (h ++ '.' :: (b64EncodeNoPad '-' '_' bs ++ '.' :: s)) =
      .ok o := by
  have h1 := splitOnDot_three h (b64EncodeNoPad '-' '_' bs) s hh (noPad_no_dot bs hbytes) hs
  unfold decode_jwt_payload
  rw [h1]
  simp only [addPadding_encodeNoPad, b64_roundtrip_url bs hbytes, hinv]

/-- `decode_jwt_payload` returns the explicit `ValueError("Invalid JWT
format")` exactly when the token does not split into three parts; failures
after a three-way split surface as the other (`ValueError`-subclass)
errors. -/
theorem decode_jwt_payload_invalidFormat_iff {J : Type} (loads : List Nat → Option J)
    (token : List Char) :
    decode_jwt_payload loads token = .error .invalidFormat ↔
      (splitOnDot token).length ≠ 3 := by
  unfold decode_jwt_payload
  cases hsp : splitOnDot token with
  | nil => simp
  | cons p1 t1 =>
    cases t1 with
    | nil => simp
    | cons p2 t2 =>
      cases t2 with
      | nil => simp
      | cons p3 t3 =>
        cases t3 with
        | nil =>
            cases hdec : b64DecodeChunks '-' '_' (addPadding p2) with
            | none => simp [hdec]
            | some bytes => cases hl : loads bytes <;> simp [hdec, hl]
        | cons p4 t4 => simp

end TestSSO

/-! ## Claim theorems -/

/-- Claim C8, as stated, is false: the round trip
`decode_jwt_payload (h ++ "." ++ b64url(bytes) ++ "." ++ s) = bytes-as-JSON`
fails for arbitrary `h`, `s`.  With `h = "a.b"` (which contains a dot), the
serialised object `[104, 105]` (oracle serialisation `id`, `json.loads`
oracle `some`) and `s = "c"`, the token splits into four parts and
`decode_jwt_payload` raises `ValueError("Invalid JWT format")` instead of
returning the object.  Moreover "raises ValueError exactly when the input
does not split into three parts" fails in the other direction as well:
`"x.A.y"` splits into exactly three parts, yet decoding raises a
`ValueError` subclass (`binascii.Error`, since `"A"` pads to `"A==="`,
which is not valid base64). -/
theorem claim8_counterexample :
    ("a.b".data ++ '.' :: (b64EncodeNoPad '-' '_' [104, 105] ++ '.' :: "c".data)) =
        "a.b.aGk.c".data ∧
    TestSSO.decode_jwt_payload (fun bs => some bs) "a.b.aGk.c".data =
        .error TestSSO.JwtErr.invalidFormat ∧
    (TestSSO.splitOnDot "x.A.y".data).length = 3 ∧
    TestSSO.decode_jwt_payload (fun bs => some bs) "x.A.y".data =
        .error TestSSO.JwtErr.binasciiError := by
  refine ⟨rfl, rfl, rfl, rfl⟩

/-- Claim C8 (amended): for every serialised JSON object (byte list `bs`
with a `json.loads` oracle inverting it to `o`) and every header and
signature segment **containing no `.` character**,
`decode_jwt_payload (h ++ "." ++ base64url_encode_without_padding(bs) ++ "." ++ s)`
returns `o`; the padding computation appends `(4 - len mod 4) mod 4`
equals signs, yielding a length that is a multiple of 4; and the explicit
`ValueError("Invalid JWT format")` is raised exactly when the input does
not split on `.` into three parts (three-part tokens can still raise the
`ValueError` subclasses `binascii.Error` / `json.JSONDecodeError`). -/
theorem claim8_amended :
    (∀ (J : Type) (loads : List Nat → Option J) (bs : List Nat) (o : J) (h s : List Char),
        '.' ∉ h → '.' ∉ s → (∀ x ∈ bs, x < 256) → loads bs = some o →
        TestSSO.decode_jwt_payload loads
          (h ++ '.' :: (b64EncodeNoPad '-' '_' bs ++ '.' :: s)) = .ok o) ∧
    (∀ cs : List Char,
        TestSSO.addPadding cs = cs ++ List.replicate ((4 - cs.length % 4) % 4) '=' ∧
        (TestSSO.addPadding cs).length % 4 = 0) ∧
    (∀ (J : Type) (loads : List Nat → Option J) (token : List Char),
        TestSSO.decode_jwt_payload loads token = .error .invalidFormat ↔
          (TestSSO.splitOnDot token).length ≠ 3) := by
  refine ⟨?_, TestSSO.addPadding_spec, ?_⟩
  · intro J loads bs o h s hh hs hbytes hinv
    exact TestSSO.decode_jwt_payload_roundtrip loads bs o h s hh hs hbytes hinv
  · intro J loads token
    exact TestSSO.decode_jwt_payload_invalidFormat_iff loads token

/-- Witness for C8 (amended) at concrete inputs: header `"h"`, signature
`"s"`, payload bytes `[104, 105]` (encoding `"aGk"`). -/
theorem claim8_witness :
    TestSSO.decode_jwt_payload (fun bs => some bs)
        ("h".data ++ '.' :: (b64EncodeNoPad '-' '_' [104, 105] ++ '.' :: "s".data)) =
      .ok [104, 105] ∧
    TestSSO.decode_jwt_payload (fun bs => some bs) "h.aGk.s".data = .ok [104, 105] := by
  have h1 := claim8_amended.1 (List Nat) (fun bs => some bs) [104, 105] [104, 105]
    "h".data "s".data (by decide) (by decide) (by decide) rfl
  exact ⟨h1, by rw [show "h.aGk.s".data =
    ("h".data ++ '.' :: (b64EncodeNoPad '-' '_' [104, 105] ++ '.' :: "s".data)) from rfl]; exact h1⟩

/-- Claim C3 (confirmed): every JSON-RPC payload built by
`MCPBearerClient._call`, `MCPHttpClient._call` and `make_mcp_request`
contains exactly the keys `jsonrpc`, `method`, `id` when `params` is `None`
or empty, and exactly those keys plus `params` otherwise; `jsonrpc` is
always the string `"2.0"` and `method` is the given method name. -/
theorem claim3_confirmed :
    (∀ (m : String) (rid : Nat) (params : Option (List (String × Json))),
      ((params = none ∨ params = some []) →
        jkeys (TestBearerClient.buildPayload m rid params) = ["jsonrpc", "method", "id"]) ∧
      (∀ p, params = some p → p ≠ [] →
        jkeys (TestBearerClient.buildPayload m rid params) =
          ["jsonrpc", "method", "id", "params"]) ∧
      jget (TestBearerClient.buildPayload m rid params) "jsonrpc" = some (Json.str "2.0") ∧
      jget (TestBearerClient.buildPayload m rid params) "method" = some (Json.str m)) ∧
    (∀ (m : String) (rid : Nat) (params : Option (List (String × Json))),
      ((params = none ∨ params = some []) →
        jkeys (TestHttpMode.buildPayload m rid params) = ["jsonrpc", "method", "id"]) ∧
      (∀ p, params = some p → p ≠ [] →
        jkeys (TestHttpMode.buildPayload m rid params) =
          ["jsonrpc", "method", "id", "params"]) ∧
      jget (TestHttpMode.buildPayload m rid params) "jsonrpc" = some (Json.str "2.0") ∧
      jget (TestHttpMode.buildPayload m rid params) "method" = some (Json.str m)) ∧
    (∀ (m : String) (params : Option (List (String × Json))),
      ((params = none ∨ params = some []) →
        jkeys (TestClient.buildPayload m params) = ["jsonrpc", "method", "id"]) ∧
      (∀ p, params = some p → p ≠ [] →
        jkeys (TestClient.buildPayload m params) = ["jsonrpc", "method", "id", "params"]) ∧
      jget (TestClient.buildPayload m params) "jsonrpc" = some (Json.str "2.0") ∧
      jget (TestClient.buildPayload m params) "method" = some (Json.str m)) := by
  refine ⟨?_, ?_, ?_⟩
  · intro m rid params
    refine ⟨?_, ?_, ?_, ?_⟩
    · rintro (rfl | rfl) <;> simp [TestBearerClient.buildPayload, jkeys]
    · rintro p rfl hp
      have hne : p.isEmpty = false := by
        cases p with
        | nil => exact absurd rfl hp
        | cons a t => rfl
      simp [TestBearerClient.buildPayload, jkeys, hne]
    · cases params with
      | none => simp [TestBearerClient.buildPayload, jget]
      | some p =>
          cases hp : p.isEmpty <;> simp [TestBearerClient.buildPayload, jget, hp]
    · cases params with
      | none => simp [TestBearerClient.buildPayload, jget]
      | some p =>
          cases hp : p.isEmpty <;> simp [TestBearerClient.buildPayload, jget, hp]
  · intro m rid params
    refine ⟨?_, ?_, ?_, ?_⟩
    · rintro (rfl | rfl) <;> simp [TestHttpMode.buildPayload, jkeys]
    · rintro p rfl hp
      have hne : p.isEmpty = false := by
        cases p with
        | nil => exact absurd rfl hp
        | cons a t => rfl
      simp [TestHttpMode.buildPayload, jkeys, hne]
    · cases params with
      | none => simp [TestHttpMode.buildPayload, jget]
      | some p =>
          cases hp : p.isEmpty <;> simp [TestHttpMode.buildPayload, jget, hp]
    · cases params with
      | none => simp [TestHttpMode.buildPayload, jget]
      | some p =>
          cases hp : p.isEmpty <;> simp [TestHttpMode.buildPayload, jget, hp]
  · intro m params
    refine ⟨?_, ?_, ?_, ?_⟩
    · rintro (rfl | rfl) <;> simp [TestClient.buildPayload, jkeys]
    · rintro p rfl hp
      have hne : p.isEmpty = false := by
        cases p with
        | nil => exact absurd rfl hp
        | cons a t => rfl
      simp [TestClient.buildPayload, jkeys, hne]
    · cases params with
      | none => simp [TestClient.buildPayload, jget]
      | some p =>
          cases hp : p.isEmpty <;> simp [TestClient.buildPayload, jget, hp]
    · cases params with
      | none => simp [TestClient.buildPayload, jget]
      | some p =>
          cases hp : p.isEmpty <;> simp [TestClient.buildPayload, jget, hp]

/-- Witness for C3 at concrete inputs. -/
theorem claim3_witness :
    jkeys (TestBearerClient.buildPayload "tools/list" 1 none) =
      ["jsonrpc", "method", "id"] ∧
    jkeys (TestHttpMode.buildPayload "tools/list" 1 (some [("a", Json.null)])) =
      ["jsonrpc", "method", "id", "params"] ∧
    jget (TestClient.buildPayload "initialize" (some [])) "jsonrpc" =
      some (Json.str "2.0") :=
  ⟨(claim3_confirmed.1 "tools/list" 1 none).1 (Or.inl rfl),
   (claim3_confirmed.2.1 "tools/list" 1 (some [("a", Json.null)])).2.1
     [("a", Json.null)] rfl (by simp),
   (claim3_confirmed.2.2 "initialize" (some [])).2.2.1⟩

/-! ## Lemmas: request id sequences -/

theorem bearer_callIds_eq :
    ∀ (k : Nat) (c : TestBearerClient.MCPBearerClient),
      c.callIds k = (List.range k).map (fun i => c.request_id + i + 1) := by
  intro k
  induction k with
  | zero => intro c; rfl
  | succ k ih =>
      intro c
      rw [TestBearerClient.MCPBearerClient.callIds, ih, List.range_succ_eq_map]
      simp only [List.map_cons, List.map_map, List.cons.injEq]
      refine ⟨by simp, ?_⟩
      refine List.map_congr_left ?_
      intro i _
      simp only [Function.comp_apply]
      omega

theorem http_callIds_eq :
    ∀ (k : Nat) (c : TestHttpMode.MCPHttpClient),
      c.callIds k = (List.range k).map (fun i => c.request_id + i + 1) := by
  intro k
  induction k with
  | zero => intro c; rfl
  | succ k ih =>
      intro c
      rw [TestHttpMode.MCPHttpClient.callIds, ih, List.range_succ_eq_map]
      simp only [List.map_cons, List.map_map, List.cons.injEq]
      refine ⟨by simp, ?_⟩
      refine List.map_congr_left ?_
      intro i _
      simp only [Function.comp_apply]
      omega

theorem range_map_add_one_pairwise (r k : Nat) :
    ((List.range k).map (fun i => r + i + 1)).Pairwise (· < ·) := by
  refine List.Pairwise.map _ ?_ (List.pairwise_lt_range k)
  intro a b hab
  show r + a + 1 < r + b + 1
  omega

theorem range_map_add_one_nodup (r k : Nat) :
    ((List.range k).map (fun i => r + i + 1)).Nodup := by
  refine List.Nodup.map ?_ (List.nodup_range k)
  intro a b hab
  have h2 : r + a + 1 = r + b + 1 := hab
  omega

theorem range_map_add_one_getD (r k i : Nat) (h : i < k) :
    (((List.range k).map (fun i => r + i + 1)).getD i 0) = r + i + 1 := by
  have hlen : i < ((List.range k).map (fun i => r + i + 1)).length := by
    simpa using h
  rw [List.getD_eq_getElem _ _ hlen]
  simp

/-- Claim C9 (confirmed): for both `MCPBearerClient` and `MCPHttpClient`,
`request_id` starts at 0 at construction and is incremented by exactly 1
before each request; the k-th request of a fresh instance carries id k;
the id sequence is strictly increasing, positive and free of repeats; and
the payload of each `_call` carries the incremented id. -/
theorem claim9_confirmed :
    (∀ endpoint token : String,
      (TestBearerClient.MCPBearerClient.init endpoint token).request_id = 0) ∧
    (∀ (c : TestBearerClient.MCPBearerClient) m params post,
      ((c.call m params post).1).request_id = c.request_id + 1) ∧
    (∀ (c : TestBearerClient.MCPBearerClient) m params post k,
      c.callIds (k + 1) = (c.request_id + 1) :: ((c.call m params post).1).callIds k) ∧
    (∀ (endpoint token : String) (k : Nat),
      (TestBearerClient.MCPBearerClient.init endpoint token).callIds k =
        (List.range k).map (fun i => i + 1)) ∧
    (∀ (endpoint token : String) (k i : Nat), i < k →
      ((TestBearerClient.MCPBearerClient.init endpoint token).callIds k).getD i 0 = i + 1) ∧
    (∀ (c : TestBearerClient.MCPBearerClient) k,
      (c.callIds k).Pairwise (· < ·) ∧ (c.callIds k).Nodup ∧
      ∀ x ∈ c.callIds k, 0 < x) ∧
    (∀ m rid params,
      jget (TestBearerClient.buildPayload m rid params) "id" = some (Json.num (rid : Int))) ∧
    (∀ endpoint : String,
      (TestHttpMode.MCPHttpClient.init endpoint).request_id = 0) ∧
    (∀ (c : TestHttpMode.MCPHttpClient) m params auth post,
      ((c.call m params auth post).1).request_id = c.request_id + 1) ∧
    (∀ (c : TestHttpMode.MCPHttpClient) m params auth post k,
      c.callIds (k + 1) = (c.request_id + 1) :: ((c.call m params auth post).1).callIds k) ∧
    (∀ (endpoint : String) (k : Nat),
      (TestHttpMode.MCPHttpClient.init endpoint).callIds k =
        (List.range k).map (fun i => i + 1)) ∧
    (∀ (endpoint : String) (k i : Nat), i < k →
      ((TestHttpMode.MCPHttpClient.init endpoint).callIds k).getD i 0 = i + 1) ∧
    (∀ (c : TestHttpMode.MCPHttpClient) k,
      (c.callIds k).Pairwise (· < ·) ∧ (c.callIds k).Nodup ∧
      ∀ x ∈ c.callIds k, 0 < x) ∧
    (∀ m rid params,
      jget (TestHttpMode.buildPayload m rid params) "id" = some (Json.num (rid : Int))) := by
  refine ⟨fun _ _ => rfl, fun _ _ _ _ => rfl, ?_, ?_, ?_, ?_, ?_,
          fun _ => rfl, fun _ _ _ _ _ => rfl, ?_, ?_, ?_, ?_, ?_⟩
  · intro c m params post k
    rfl
  · intro endpoint token k
    rw [bearer_callIds_eq]
    simp only [show (TestBearerClient.MCPBearerClient.init endpoint token).request_id = 0
      from rfl, Nat.zero_add]
  · intro endpoint token k i h
    rw [bearer_callIds_eq]
    have h0 : (TestBearerClient.MCPBearerClient.init endpoint token).request_id = 0 := rfl
    rw [h0]
    have h1 := range_map_add_one_getD 0 k i h
    simpa using h1
  · intro c k
    rw [bearer_callIds_eq]
    refine ⟨range_map_add_one_pairwise _ _, range_map_add_one_nodup _ _, ?_⟩
    intro x hx
    rw [List.mem_map] at hx
    rcases hx with ⟨i, _, rfl⟩
    omega
  · intro m rid params
    cases params with
    | none => simp [TestBearerClient.buildPayload, jget]
    | some p => cases hp : p.isEmpty <;> simp [TestBearerClient.buildPayload, jget, hp]
  · intro c m params auth post k
    rfl
  · intro endpoint k
    rw [http_callIds_eq]
    simp only [show (TestHttpMode.MCPHttpClient.init endpoint).request_id = 0
      from rfl, Nat.zero_add]
  · intro endpoint k i h
    rw [http_callIds_eq]
    have h0 : (TestHttpMode.MCPHttpClient.init endpoint).request_id = 0 := rfl
    rw [h0]
    have h1 := range_map_add_one_getD 0 k i h
    simpa using h1
  · intro c k
    rw [http_callIds_eq]
    refine ⟨range_map_add_one_pairwise _ _, range_map_add_one_nodup _ _, ?_⟩
    intro x hx
    rw [List.mem_map] at hx
    rcases hx with ⟨i, _, rfl⟩
    omega
  · intro m rid params
    cases params with
    | none => simp [TestHttpMode.buildPayload, jget]
    | some p => cases hp : p.isEmpty <;> simp [TestHttpMode.buildPayload, jget, hp]

/-- Witness for C9: the first three ids of a fresh bearer client are 1, 2, 3. -/
theorem claim9_witness :
    (TestBearerClient.MCPBearerClient.init "http://x" "tok").callIds 3 =
      (List.range 3).map (fun i => i + 1) ∧
    ((TestHttpMode.MCPHttpClient.init "http://x").callIds 3).getD 2 0 = 3 :=
  ⟨claim9_confirmed.2.2.2.1 "http://x" "tok" 3,
   claim9_confirmed.2.2.2.2.2.2.2.2.2.2.2.1 "http://x" 3 2 (by omega)⟩

/-- Claim C2 (confirmed): `test_http_mode.main` exits 0 iff
`TestResults.failed == 0` (skipped and passed counts do not affect the exit
code), `test_client.main` exits 0 iff every recorded test result is
`True`, `test_bearer_client.main` exits 0 iff `run_tests` returned `True`;
in all other cases the exit status is 1. -/
theorem claim2_confirmed :
    (∀ r : TestHttpMode.TestResults, TestHttpMode.main_exit r = 0 ↔ r.failed = 0) ∧
    (∀ r r' : TestHttpMode.TestResults, r.failed = r'.failed →
      TestHttpMode.main_exit r = TestHttpMode.main_exit r') ∧
    (∀ r : TestHttpMode.TestResults,
      TestHttpMode.main_exit r = 0 ∨ TestHttpMode.main_exit r = 1) ∧
    (∀ results : List (String × Bool),
      TestClient.main_exit results = 0 ↔ ∀ x ∈ results, x.2 = true) ∧
    (∀ results : List (String × Bool),
      TestClient.main_exit results = 0 ∨ TestClient.main_exit results = 1) ∧
    (∀ b : Bool, TestBearerClient.main_exit b = 0 ↔ b = true) ∧
    (∀ b : Bool, TestBearerClient.main_exit b = 0 ∨ TestBearerClient.main_exit b = 1) := by
  have hclient : ∀ results : List (String × Bool),
      TestClient.main_exit results = 0 ↔ ∀ x ∈ results, x.2 = true := by
    intro results
    unfold TestClient.main_exit
    by_cases h : (results.filter (fun r => r.2)).length = results.length
    · rw [if_pos h]
      have hall : ∀ x ∈ results, x.2 = true := by
        have hsub := List.filter_sublist (p := fun r : String × Bool => r.2) results
        have heq := hsub.eq_of_length h
        intro x hx
        exact List.filter_eq_self.mp heq x hx
      exact iff_of_true rfl hall
    · rw [if_neg h]
      have hex : ∃ x ∈ results, ¬ x.2 = true := by
        by_contra hc
        push_neg at hc
        exact h (by rw [List.filter_eq_self.mpr hc])
      rcases hex with ⟨x, hx, hxf⟩
      have hmem : x ∈ results.filter (fun r => !r.2) := by
        rw [List.mem_filter]
        exact ⟨hx, by simpa using hxf⟩
      have hne : ((results.filter (fun r => !r.2)).map (fun r => r.1)) ≠ [] := by
        intro hnil
        have hfl : results.filter (fun r => !r.2) = [] := by
          cases hfl : results.filter (fun r => !r.2) with
          | nil => rfl
          | cons y ys => rw [hfl] at hnil; exact absurd hnil (by simp)
        rw [hfl] at hmem
        exact List.not_mem_nil x hmem
      have hcond : (((results.filter (fun r => !r.2)).map (fun r => r.1)).isEmpty) = false := by
        cases hl : (results.filter (fun r => !r.2)).map (fun r => r.1) with
        | nil => exact absurd hl hne
        | cons y ys => rfl
      refine iff_of_false ?_ ?_
      · simp [hcond]
      · intro hall
        exact hxf (hall x hx)
  refine ⟨?_, ?_, ?_, hclient, ?_, ?_, ?_⟩
  · intro r
    unfold TestHttpMode.main_exit
    by_cases h : r.failed = 0 <;> simp [h]
  · intro r r' hf
    unfold TestHttpMode.main_exit
    rw [hf]
  · intro r
    unfold TestHttpMode.main_exit
    by_cases h : r.failed = 0 <;> simp [h]
  · intro results
    unfold TestClient.main_exit
    by_cases h : (results.filter (fun r => r.2)).length = results.length
    · rw [if_pos h]; left; rfl
    · rw [if_neg h]
      cases hc : (((results.filter (fun r => !r.2)).map (fun r => r.1)).isEmpty) with
      | false => right; simp [hc]
      | true => left; simp [hc]
  · intro b
    cases b <;> simp [TestBearerClient.main_exit]
  · intro b
    cases b <;> simp [TestBearerClient.main_exit]

/-- Witness for C2 at concrete inputs: two skipped and three passed tests
exit 0; an all-true result list exits 0; a successful bearer run exits 0. -/
theorem claim2_witness :
    TestHttpMode.main_exit ⟨3, 0, 2⟩ = 0 ∧
    TestClient.main_exit [("Tools List", true), ("Get Schema", true)] = 0 ∧
    TestBearerClient.main_exit true = 0 :=
  ⟨(claim2_confirmed.1 ⟨3, 0, 2⟩).mpr rfl,
   (claim2_confirmed.2.2.2.1 [("Tools List", true), ("Get Schema", true)]).mpr (by simp),
   (claim2_confirmed.2.2.2.2.2.1 true).mpr rfl⟩

/-! ## Lemmas: non-empty auth header strings -/

theorem bearer_prefix_ne_empty (token : String) : ("Bearer " ++ token) ≠ "" := by
  intro hcon
  have hd : ("Bearer " ++ token).data = [] := by rw [hcon]
  rw [String.data_append] at hd
  rcases List.append_eq_nil.mp hd with ⟨h1, _⟩
  exact absurd h1 (by decide)

theorem bearer_prefix_isEmpty_false (token : String) :
    ("Bearer " ++ token).isEmpty = false := by
  rw [← Bool.not_eq_true, String.isEmpty_iff]
  exact bearer_prefix_ne_empty token

/-- Claim C5 (confirmed): every bearer-authenticated request carries
`Authorization: Bearer <token>` with the token unchanged (bearer client
`_call`, `test_bearer_auth`, `make_mcp_request`), and `test_basic_auth`
sends `Authorization: Basic <base64(username:password)>` where the
encoding is genuine standard base64 of the UTF-8 bytes of
`username + ":" + password` (certified by decoding back). -/
theorem claim5_confirmed :
    (∀ token : String,
      lookupS (TestBearerClient.callHeaders token) "Authorization" =
        some ("Bearer " ++ token)) ∧
    (∀ token : String, TestHttpMode.test_bearer_auth_header token = "Bearer " ++ token) ∧
    (∀ token : String,
      lookupS (TestHttpMode.callHeaders (some ("Bearer " ++ token))) "Authorization" =
        some ("Bearer " ++ token)) ∧
    (∀ api_key : String,
      lookupS (TestClient.mkHeaders api_key) "Authorization" =
        some ("Bearer " ++ api_key)) ∧
    (∀ username password : String,
      TestHttpMode.test_basic_auth_header username password =
        "Basic " ++ TestHttpMode.test_basic_auth_credentials username password ∧
      TestHttpMode.test_basic_auth_credentials username password =
        String.mk (b64EncodeChunks '+' '/' (utf8Bytes (username ++ ":" ++ password)))) ∧
    (∀ username password : String,
      b64DecodeChunks '+' '/'
          (TestHttpMode.test_basic_auth_credentials username password).data =
        some (utf8Bytes (username ++ ":" ++ password))) := by
  refine ⟨fun token => rfl, fun token => rfl, ?_, fun api_key => rfl,
          fun u p => ⟨rfl, rfl⟩, ?_⟩
  · intro token
    simp only [TestHttpMode.callHeaders, bearer_prefix_isEmpty_false, Bool.not_false,
               if_true]
    rfl
  · intro u p
    exact b64_roundtrip_std (utf8Bytes (u ++ ":" ++ p))
      (utf8Bytes_lt_256 (u ++ ":" ++ p))

/-- Witness for C5: concrete credentials `neo4j`/`secret` produce the
RFC 4648 encoding `bmVvNGo6c2VjcmV0`. -/
theorem claim5_witness :
    b64DecodeChunks '+' '/'
        (TestHttpMode.test_basic_auth_credentials "neo4j" "secret").data =
      some (utf8Bytes ("neo4j" ++ ":" ++ "secret")) ∧
    TestHttpMode.test_basic_auth_credentials "neo4j" "secret" = "bmVvNGo6c2VjcmV0" ∧
    TestHttpMode.test_basic_auth_header "neo4j" "secret" = "Basic bmVvNGo6c2VjcmV0" :=
  ⟨claim5_confirmed.2.2.2.2.2 "neo4j" "secret", by decide, by decide⟩

/-- Claim C10, as stated, is false on the boundary between "set" and
"non-empty": with `MCP_BEARER_TOKEN` unset and all three Azure variables
set — `AZURE_TENANT_ID` set to the empty string — both
`get_token_from_env` implementations skip Azure acquisition entirely
(Python truthiness) and fall through to the unconfigured case, although
the claim requires an Azure attempt whenever the three variables are set. -/
theorem claim10_counterexample :
    (fun k => if k = "AZURE_TENANT_ID" then some ""
       else if k = "AZURE_CLIENT_ID" then some "c"
       else if k = "AZURE_CLIENT_SECRET" then some "s"
       else (none : Option String)) "MCP_BEARER_TOKEN" = none ∧
    (fun k => if k = "AZURE_TENANT_ID" then some ""
       else if k = "AZURE_CLIENT_ID" then some "c"
       else if k = "AZURE_CLIENT_SECRET" then some "s"
       else (none : Option String)) "AZURE_TENANT_ID" ≠ none ∧
    TestBearerClient.get_token_from_env
      (fun k => if k = "AZURE_TENANT_ID" then some ""
        else if k = "AZURE_CLIENT_ID" then some "c"
        else if k = "AZURE_CLIENT_SECRET" then some "s"
        else (none : Option String)) = TestBearerClient.TokenSource.noneConfigured ∧
    TestHttpMode.get_token_from_env
      (fun k => if k = "AZURE_TENANT_ID" then some ""
        else if k = "AZURE_CLIENT_ID" then some "c"
        else if k = "AZURE_CLIENT_SECRET" then some "s"
        else (none : Option String)) = TestBearerClient.TokenSource.noneConfigured := by
  refine ⟨rfl, by simp, rfl, rfl⟩

/-- Claim C10 (amended): a **non-empty** `MCP_BEARER_TOKEN` always wins and
is returned unchanged without consulting the `msal` oracle; Azure token
acquisition is selected iff `MCP_BEARER_TOKEN` is unset/empty and all
three of `AZURE_TENANT_ID`, `AZURE_CLIENT_ID`, `AZURE_CLIENT_SECRET` are
set **to non-empty strings**; both implementations make the same decision,
and when neither source is configured the bearer-client version raises
`ValueError` while the http-mode version returns `None`. -/
theorem claim10_amended :
    ∀ env : Env,
      (envTruthy (env "MCP_BEARER_TOKEN") = true →
        TestBearerClient.get_token_from_env env =
          .direct ((env "MCP_BEARER_TOKEN").getD "") ∧
        TestHttpMode.get_token_from_env env =
          .direct ((env "MCP_BEARER_TOKEN").getD "") ∧
        (∀ acq : List String → List (String × String),
          TestBearerClient.getTokenResult env acq =
            .ok ((env "MCP_BEARER_TOKEN").getD "") ∧
          TestHttpMode.getTokenResult env acq =
            .ok (some ((env "MCP_BEARER_TOKEN").getD "")))) ∧
      ((∃ a b c d, TestBearerClient.get_token_from_env env =
          TestBearerClient.TokenSource.azure a b c d) ↔
        (envTruthy (env "MCP_BEARER_TOKEN") = false ∧
         envTruthy (env "AZURE_TENANT_ID") = true ∧
         envTruthy (env "AZURE_CLIENT_ID") = true ∧
         envTruthy (env "AZURE_CLIENT_SECRET") = true)) ∧
      (TestHttpMode.get_token_from_env env = TestBearerClient.get_token_from_env env) ∧
      (envTruthy (env "MCP_BEARER_TOKEN") = false →
        ¬(envTruthy (env "AZURE_TENANT_ID") = true ∧
          envTruthy (env "AZURE_CLIENT_ID") = true ∧
          envTruthy (env "AZURE_CLIENT_SECRET") = true) →
        ∀ acq,
          TestBearerClient.getTokenResult env acq =
            .error "ValueError: No authentication configured" ∧
          TestHttpMode.getTokenResult env acq = .ok none) := by
  intro env
  refine ⟨?_, ⟨?_, ?_⟩, ?_, ?_⟩
  · intro hb
    refine ⟨by simp [TestBearerClient.get_token_from_env, hb],
            by simp [TestHttpMode.get_token_from_env, hb], ?_⟩
    intro acq
    constructor
    · simp [TestBearerClient.getTokenResult, TestBearerClient.get_token_from_env, hb]
    · simp [TestHttpMode.getTokenResult, TestHttpMode.get_token_from_env, hb]
  · rintro ⟨a, b, c, d, hazure⟩
    by_cases hb : envTruthy (env "MCP_BEARER_TOKEN")
    · simp [TestBearerClient.get_token_from_env, hb] at hazure
    · by_cases h3 : (envTruthy (env "AZURE_TENANT_ID") && envTruthy (env "AZURE_CLIENT_ID")
          && envTruthy (env "AZURE_CLIENT_SECRET")) = true
      · rw [Bool.and_eq_true, Bool.and_eq_true] at h3
        exact ⟨by simpa using hb, h3.1.1, h3.1.2, h3.2⟩
      · simp [TestBearerClient.get_token_from_env, hb, h3] at hazure
  · rintro ⟨hb, h1, h2, h3⟩
    exact ⟨(env "AZURE_TENANT_ID").getD "", (env "AZURE_CLIENT_ID").getD "",
           (env "AZURE_CLIENT_SECRET").getD "", env "AZURE_AUDIENCE",
           by simp [TestBearerClient.get_token_from_env, hb, h1, h2, h3]⟩
  · rfl
  · intro hb hn3 acq
    have h3 : (envTruthy (env "AZURE_TENANT_ID") && envTruthy (env "AZURE_CLIENT_ID") &&
        envTruthy (env "AZURE_CLIENT_SECRET")) = false := by
      by_contra hcon
      rw [Bool.not_eq_false] at hcon
      rw [Bool.and_eq_true, Bool.and_eq_true] at hcon
      exact hn3 ⟨hcon.1.1, hcon.1.2, hcon.2⟩
    constructor
    · simp [TestBearerClient.getTokenResult, TestBearerClient.get_token_from_env, hb, h3]
    · simp [TestHttpMode.getTokenResult, TestHttpMode.get_token_from_env, hb, h3]

/-- Witness for C10 (amended) at a concrete environment holding only a
direct bearer token. -/
theorem claim10_witness :
    TestBearerClient.getTokenResult
        (fun k => if k = "MCP_BEARER_TOKEN" then some "tok123" else none)
        (fun _ => []) = .ok "tok123" ∧
    TestHttpMode.getTokenResult
        (fun k => if k = "MCP_BEARER_TOKEN" then some "tok123" else none)
        (fun _ => []) = .ok (some "tok123") :=
  ((claim10_amended
      (fun k => if k = "MCP_BEARER_TOKEN" then some "tok123" else none)).1
    (by decide)).2.2 (fun _ => [])

/-- Claim C1, as stated, is false for `MCPHttpClient._call`: on an HTTP 401
response it neither raises nor returns an authentication exception — it
returns the ordinary result dict `{"status_code": 401, "headers": ...,
"body": ..., "json": ...}` (and likewise for 403 and every other status). -/
theorem claim1_counterexample :
    ((TestHttpMode.MCPHttpClient.init "http://x").call "tools/list" none none
        (fun _ _ => PostBehavior.resp ⟨401, [], "unauthorized", none⟩)).2 =
      Except.ok ⟨401, [], "unauthorized", none⟩ ∧
    ((TestHttpMode.MCPHttpClient.init "http://x").call "tools/list" none none
        (fun _ _ => PostBehavior.resp ⟨401, [], "unauthorized", none⟩)).2.isOk = true := by
  exact ⟨rfl, rfl⟩

/-- Claim C1 (amended): `MCPBearerClient._call` raises the generic
authentication / authorization exception on 401 / 403 and returns the
parsed JSON body on a 2xx response; `make_mcp_request` returns a generic
`{"error": {...}}` object for any `HTTPError` (401/403 included) and the
parsed JSON body on success; but `MCPHttpClient._call` maps no status to
an exception: it returns the structured record
`{status_code, headers, body, json}` for every response. -/
theorem claim1_amended :
    (∀ (c : TestBearerClient.MCPBearerClient) m params (r : HttpResponse),
      (r.statusCode = 401 →
        (c.callB m params (.resp r)).2 =
          .error "Authentication failed: Invalid or expired token") ∧
      (r.statusCode = 403 →
        (c.callB m params (.resp r)).2 =
          .error "Authorization failed: Insufficient permissions") ∧
      (∀ j, 200 ≤ r.statusCode → r.statusCode < 300 → r.bodyJson = some j →
        (c.callB m params (.resp r)).2 = .ok j)) ∧
    (∀ (c : TestHttpMode.MCPHttpClient) m params auth (r : HttpResponse),
      (c.callB m params auth (.resp r)).2 =
        .ok ⟨r.statusCode, r.headers, r.bodyText, r.bodyJson⟩) ∧
    (∀ (endpoint api_key m : String) (params : Option (List (String × Json)))
        (body reason : String) (code : Nat),
      ((code = 401 ∨ code = 403) →
        TestClient.make_mcp_request endpoint api_key m params
            (fun _ _ _ => .httpError code reason body) =
          Json.obj [("error", Json.obj
            [("code", Json.num (code : Int)),
             ("message", Json.str ("HTTP " ++ toString code ++ ": " ++ reason)),
             ("data", Json.str body)])]) ∧
      (∀ j : Json,
        TestClient.make_mcp_request endpoint api_key m params
            (fun _ _ _ => .success body (.ok j)) = j)) := by
  refine ⟨?_, fun c m params auth r => rfl, ?_⟩
  · intro c m params r
    refine ⟨?_, ?_, ?_⟩
    · intro h401
      simp [TestBearerClient.MCPBearerClient.callB, TestBearerClient.MCPBearerClient.call,
            h401]
    · intro h403
      simp [TestBearerClient.MCPBearerClient.callB, TestBearerClient.MCPBearerClient.call,
            h403]
    · intro j h200 h300 hj
      have h1 : ¬ r.statusCode = 401 := by omega
      have h2 : ¬ r.statusCode = 403 := by omega
      have h3 : ¬(400 ≤ r.statusCode ∧ r.statusCode < 600) := by omega
      simp [TestBearerClient.MCPBearerClient.callB, TestBearerClient.MCPBearerClient.call,
            h1, h2, h3, hj]
  · intro endpoint api_key m params body reason code
    exact ⟨fun _ => rfl, fun j => rfl⟩

/-- Witness for C1 (amended) at concrete responses. -/
theorem claim1_witness :
    ((TestBearerClient.MCPBearerClient.init "http://x" "tok").callB "tools/list" none
        (.resp ⟨401, [], "denied", none⟩)).2 =
      .error "Authentication failed: Invalid or expired token" ∧
    ((TestBearerClient.MCPBearerClient.init "http://x" "tok").callB "tools/list" none
        (.resp ⟨200, [], "{}", some (Json.obj [])⟩)).2 = .ok (Json.obj []) ∧
    TestClient.make_mcp_request "http://x/mcp" "key" "tools/list" none
        (fun _ _ _ => .httpError 401 "Unauthorized" "denied") =
      Json.obj [("error", Json.obj
        [("code", Json.num 401),
         ("message", Json.str ("HTTP " ++ toString 401 ++ ": " ++ "Unauthorized")),
         ("data", Json.str "denied")])] :=
  ⟨((claim1_amended.1 (TestBearerClient.MCPBearerClient.init "http://x" "tok") "tools/list"
      none ⟨401, [], "denied", none⟩).1 rfl),
   ((claim1_amended.1 (TestBearerClient.MCPBearerClient.init "http://x" "tok") "tools/list"
      none ⟨200, [], "{}", some (Json.obj [])⟩).2.2 (Json.obj []) (by decide) (by decide) rfl),
   ((claim1_amended.2.2 "http://x/mcp" "key" "tools/list" none "denied" "Unauthorized"
      401).1 (Or.inl rfl))⟩

/-- Claim C4, as stated, is false for `acquire_m2m_token`: when the `msal`
result contains both an `"error"` key and an `"access_token"` key, the
claim requires the access token string to be returned, but the code checks
`"error" in token_result` first and returns `None`. -/
theorem claim4_counterexample :
    lookupS ((fun _ : List String =>
        [("error", "interaction_required"), ("access_token", "tok123")])
        ["api://c/.default"]) "access_token" = some "tok123" ∧
    (TestSSO.acquire_m2m_token "t" "c" "s"
        (fun _ => [("error", "interaction_required"), ("access_token", "tok123")])).2 =
      none := by
  exact ⟨rfl, rfl⟩

/-- Claim C4 (amended): each wrapper invokes `acquire_token_for_client`
once, with scope `{audience or api://client_id}/.default`; the two
`get_azure_token` wrappers return the exact `access_token` string when the
key is present and otherwise surface
`error_description` / `error` / `"Unknown error"`; `acquire_m2m_token`
(whose scope is always `api://{client_id}/.default`) returns the token
only when the result has **no** `"error"` key and the token is non-empty —
a result carrying an `"error"` key yields `None` (with a failed check
recorded) even when `access_token` is present, and an empty token also
yields `None`. -/
theorem claim4_amended :
    (∀ (tid cid sec : String) (aud : Option String)
        (acq : List String → List (String × String)),
      (∀ t, lookupS (acq (TestBearerClient.azureScopes cid aud)) "access_token" = some t →
        TestBearerClient.get_azure_token tid cid sec aud acq = .ok t) ∧
      (lookupS (acq (TestBearerClient.azureScopes cid aud)) "access_token" = none →
        TestBearerClient.get_azure_token tid cid sec aud acq =
          .error ("Failed to acquire token: " ++
            ((lookupS (acq (TestBearerClient.azureScopes cid aud)) "error_description").getD
              ((lookupS (acq (TestBearerClient.azureScopes cid aud)) "error").getD
                "Unknown error")))) ∧
      (∀ acq₂, acq (TestBearerClient.azureScopes cid aud) =
          acq₂ (TestBearerClient.azureScopes cid aud) →
        TestBearerClient.get_azure_token tid cid sec aud acq =
          TestBearerClient.get_azure_token tid cid sec aud acq₂)) ∧
    (∀ (tid cid sec : String) (aud : Option String)
        (acq : List String → List (String × String)),
      (∀ t, lookupS (acq (TestHttpMode.azureScopes cid aud)) "access_token" = some t →
        TestHttpMode.get_azure_token tid cid sec aud acq = .ok t) ∧
      (lookupS (acq (TestHttpMode.azureScopes cid aud)) "access_token" = none →
        TestHttpMode.get_azure_token tid cid sec aud acq =
          .error ("Failed to acquire token: " ++
            ((lookupS (acq (TestHttpMode.azureScopes cid aud)) "error_description").getD
              ((lookupS (acq (TestHttpMode.azureScopes cid aud)) "error").getD
                "Unknown error")))) ∧
      (∀ acq₂, acq (TestHttpMode.azureScopes cid aud) =
          acq₂ (TestHttpMode.azureScopes cid aud) →
        TestHttpMode.get_azure_token tid cid sec aud acq =
          TestHttpMode.get_azure_token tid cid sec aud acq₂)) ∧
    (∀ cid : String,
      TestBearerClient.azureScopes cid none = ["api://" ++ cid ++ "/.default"] ∧
      TestHttpMode.azureScopes cid none = ["api://" ++ cid ++ "/.default"] ∧
      ∀ a : String, a ≠ "" →
        TestBearerClient.azureScopes cid (some a) = [a ++ "/.default"] ∧
        TestHttpMode.azureScopes cid (some a) = [a ++ "/.default"]) ∧
    (∀ (tid cid sec : String) (acq : List String → List (String × String)),
      ((lookupS (acq ["api://" ++ cid ++ "/.default"]) "error").isSome = true →
        (TestSSO.acquire_m2m_token tid cid sec acq).2 = none ∧
        ("Acquire M2M token", false) ∈
          (TestSSO.acquire_m2m_token tid cid sec acq).1.map
            (fun ch => (ch.name, ch.passed))) ∧
      (∀ t, lookupS (acq ["api://" ++ cid ++ "/.default"]) "error" = none →
        lookupS (acq ["api://" ++ cid ++ "/.default"]) "access_token" = some t →
        t ≠ "" → (TestSSO.acquire_m2m_token tid cid sec acq).2 = some t) ∧
      (lookupS (acq ["api://" ++ cid ++ "/.default"]) "error" = none →
        lookupS (acq ["api://" ++ cid ++ "/.default"]) "access_token" = some "" →
        (TestSSO.acquire_m2m_token tid cid sec acq).2 = none)) := by
  refine ⟨?_, ?_, ?_, ?_⟩
  · intro tid cid sec aud acq
    have heq : TestBearerClient.get_azure_token tid cid sec aud acq =
        (match lookupS (acq (TestBearerClient.azureScopes cid aud)) "access_token" with
         | none => Except.error ("Failed to acquire token: " ++
             ((lookupS (acq (TestBearerClient.azureScopes cid aud)) "error_description").getD
               ((lookupS (acq (TestBearerClient.azureScopes cid aud)) "error").getD
                 "Unknown error")))
         | some token => Except.ok token) := rfl
    refine ⟨?_, ?_, ?_⟩
    · intro t ht
      rw [heq, ht]
    · intro hn
      rw [heq, hn]
    · intro acq₂ hagree
      have heq₂ : TestBearerClient.get_azure_token tid cid sec aud acq₂ =
          (match lookupS (acq₂ (TestBearerClient.azureScopes cid aud)) "access_token" with
           | none => Except.error ("Failed to acquire token: " ++
               ((lookupS (acq₂ (TestBearerClient.azureScopes cid aud)) "error_description").getD
                 ((lookupS (acq₂ (TestBearerClient.azureScopes cid aud)) "error").getD
                   "Unknown error")))
           | some token => Except.ok token) := rfl
      rw [heq, heq₂, hagree]
  · intro tid cid sec aud acq
    have heq : TestHttpMode.get_azure_token tid cid sec aud acq =
        (match lookupS (acq (TestHttpMode.azureScopes cid aud)) "access_token" with
         | none => Except.error ("Failed to acquire token: " ++
             ((lookupS (acq (TestHttpMode.azureScopes cid aud)) "error_description").getD
               ((lookupS (acq (TestHttpMode.azureScopes cid aud)) "error").getD
                 "Unknown error")))
         | some token => Except.ok token) := rfl
    refine ⟨?_, ?_, ?_⟩
    · intro t ht
      rw [heq, ht]
    · intro hn
      rw [heq, hn]
    · intro acq₂ hagree
      have heq₂ : TestHttpMode.get_azure_token tid cid sec aud acq₂ =
          (match lookupS (acq₂ (TestHttpMode.azureScopes cid aud)) "access_token" with
           | none => Except.error ("Failed to acquire token: " ++
               ((lookupS (acq₂ (TestHttpMode.azureScopes cid aud)) "error_description").getD
                 ((lookupS (acq₂ (TestHttpMode.azureScopes cid aud)) "error").getD
                   "Unknown error")))
           | some token => Except.ok token) := rfl
      rw [heq, heq₂, hagree]
  · intro cid
    exact ⟨rfl, rfl, fun a ha => by
      have hf : a.isEmpty = false := by
        rw [← Bool.not_eq_true, String.isEmpty_iff]
        exact ha
      constructor <;>
        simp [TestBearerClient.azureScopes, TestHttpMode.azureScopes, hf]⟩
  · intro tid cid sec acq
    refine ⟨?_, ?_, ?_⟩
    · intro herr
      constructor <;> simp [TestSSO.acquire_m2m_token, herr]
    · intro t hn ht hne
      have hf : t.isEmpty = false := by
        rw [← Bool.not_eq_true, String.isEmpty_iff]
        exact hne
      simp [TestSSO.acquire_m2m_token, hn, ht, hf]
    · intro hn ht
      simp [TestSSO.acquire_m2m_token, hn, ht]
      rfl

/-- Witness for C4 (amended) at concrete oracle results. -/
theorem claim4_witness :
    TestBearerClient.get_azure_token "t" "c" "s" none
        (fun _ => [("access_token", "tokA")]) = .ok "tokA" ∧
    TestHttpMode.get_azure_token "t" "c" "s" none
        (fun _ => [("error", "bad_client")]) =
      .error "Failed to acquire token: bad_client" ∧
    (TestSSO.acquire_m2m_token "t" "c" "s"
        (fun _ => [("access_token", "tokB")])).2 = some "tokB" :=
  ⟨(claim4_amended.1 "t" "c" "s" none (fun _ => [("access_token", "tokA")])).1 "tokA" rfl,
   (claim4_amended.2.1 "t" "c" "s" none (fun _ => [("error", "bad_client")])).2.1 rfl,
   (claim4_amended.2.2.2 "t" "c" "s" (fun _ => [("access_token", "tokB")])).2.1 "tokB"
     rfl rfl (by decide)⟩

/-- Claim C6, as stated, is false for `run_tests` in `test_http_mode.py`:
the Test-1 health check is not guarded by a `try`/`except` in `run_tests`,
and `health_check` itself catches only `ConnectionError` and `Timeout`, so
any other exception from the underlying `requests.post` (for example an
`InvalidSchema` / `MissingSchema` error on a malformed endpoint)
propagates out of `run_tests`. -/
theorem claim6_counterexample :
    TestHttpMode.run_tests none none none false "http://x"
        ⟨PostBehavior.otherExn "InvalidSchema", .connError, .connError,
         .connError, .connError, .connError, .connError⟩ =
      .error "InvalidSchema" := by
  rfl

/-- Claim C6 (amended): every exception raised while performing Tests 2-7 of
`test_http_mode.py`'s `run_tests` is caught and recorded as a failure, and
`test_bearer_client.py`'s `run_tests` never propagates any exception at
all; but the initial health check of `test_http_mode.py` catches only
`ConnectionError` and `Timeout` (mapping them to a failed health check),
so any other exception raised by its `requests.post` propagates out of
`run_tests`. -/
theorem claim6_amended :
    (∀ (bearer_token username password : Option String) (http_only : Bool)
        (endpoint : String) (bs : TestHttpMode.HttpBehaviors),
      (∀ m, bs.b1 ≠ PostBehavior.otherExn m) →
      (TestHttpMode.run_tests bearer_token username password http_only endpoint bs).isOk =
        true) ∧
    (∀ (client : TestBearerClient.MCPBearerClient) (bs : TestBearerClient.BearerBehaviors),
      (TestBearerClient.run_tests client bs).isOk = true) ∧
    (TestHttpMode.health_check PostBehavior.connError = .ok false) ∧
    (TestHttpMode.health_check PostBehavior.timeout = .ok false) ∧
    (∀ m, TestHttpMode.health_check (PostBehavior.otherExn m) = .error m) := by
  refine ⟨?_, ?_, rfl, rfl, fun m => rfl⟩
  · intro bearer_token username password http_only endpoint bs hno
    have hex : ∃ v, TestHttpMode.health_check bs.b1 = .ok v := by
      cases hb : bs.b1 with
      | resp r => exact ⟨_, rfl⟩
      | connError => exact ⟨false, rfl⟩
      | timeout => exact ⟨false, rfl⟩
      | otherExn m => exact absurd hb (hno m)
    rcases hex with ⟨v, hv⟩
    unfold TestHttpMode.run_tests
    rw [hv]
    cases v with
    | false => rfl
    | true =>
        cases bearer_token <;> cases username <;> cases password <;> cases http_only <;>
          rfl
  · intro client bs
    unfold TestBearerClient.run_tests
    repeat' split
    all_goals rfl

/-- Witness for C6 (amended): a behaviour pack whose health check gets a
connection error (caught) and whose remaining posts return 401s. -/
theorem claim6_witness :
    (TestHttpMode.run_tests (some "tok") none none false "http://x"
        ⟨.resp ⟨200, [], "", none⟩, .resp ⟨401, [], "", none⟩, .resp ⟨401, [], "", none⟩,
         .connError, .timeout, .resp ⟨200, [], "ok", some (Json.obj [])⟩,
         .otherExn "boom"⟩).isOk = true ∧
    (TestBearerClient.run_tests (TestBearerClient.MCPBearerClient.init "http://x" "tok")
        ⟨.otherExn "boom", .connError, .timeout, .resp ⟨500, [], "", none⟩,
         .resp ⟨200, [], "", none⟩⟩).isOk = true :=
  ⟨claim6_amended.1 (some "tok") none none false "http://x"
      ⟨.resp ⟨200, [], "", none⟩, .resp ⟨401, [], "", none⟩, .resp ⟨401, [], "", none⟩,
       .connError, .timeout, .resp ⟨200, [], "ok", some (Json.obj [])⟩,
       .otherExn "boom"⟩
      (fun _ hcon => PostBehavior.noConfusion hcon),
   claim6_amended.2.1 (TestBearerClient.MCPBearerClient.init "http://x" "tok")
      ⟨.otherExn "boom", .connError, .timeout, .resp ⟨500, [], "", none⟩,
       .resp ⟨200, [], "", none⟩⟩⟩

/-! ## Lemmas: validate_token_cryptographically characterisation -/

set_option maxHeartbeats 1600000 in
theorem validate_some_iff
    (token : List Char) (tid cid : String) (loads : List Nat → Option Json)
    (fo : Except TestSSO.FetchErr String) (fj : String → Except TestSSO.FetchErr Json)
    (fw : Json → Except String Json)
    (jd : Json → List String → String → List String → TestSSO.JwtDecodeOutcome)
    (payload' : Json) :
    (TestSSO.validate_token_cryptographically token tid cid loads fo fj fw jd).2 =
        some payload' ↔
      ∃ (jwks_uri : String) (jwks header pl kid key pk : Json)
        (hfs : List (String × Json)),
        fo = .ok jwks_uri ∧ fj jwks_uri = .ok jwks ∧
        TestSSO.decode_token_unverified loads token = .ok (header, pl) ∧
        header = Json.obj hfs ∧ jget hfs "kid" = some kid ∧ kid.truthy = true ∧
        (∃ jfs, jwks = Json.obj jfs ∧
          TestSSO.findMatchingKey kid ((jget jfs "keys").getD (Json.arr [])) =
            .ok (some key)) ∧
        fw key = .ok pk ∧
        jd pk ["RS256"] ("api://" ++ cid)
          ["https://sts.windows.net/" ++ tid ++ "/",
           "https://login.microsoftonline.com/" ++ tid ++ "/v2.0"] = .ok payload' := by
  unfold TestSSO.validate_token_cryptographically
  cases fo with
  | error e => cases e <;> simp
  | ok jwks_uri =>
    cases hfj : fj jwks_uri with
    | error e => cases e <;> simp [hfj]
    | ok jwks =>
      cases hdec : TestSSO.decode_token_unverified loads token with
      | error e => simp [hfj, hdec]
      | ok hp =>
        obtain ⟨header, pl⟩ := hp
        cases header with
        | null => simp [hfj, hdec]
        | bool b => simp [hfj, hdec]
        | num n => simp [hfj, hdec]
        | str s => simp [hfj, hdec]
        | arr xs => simp [hfj, hdec]
        | obj hfs =>
          cases hkid : jget hfs "kid" with
          | none => simp [hfj, hdec, jsonTruthyOpt, hkid]
          | some kid =>
            cases hkt : kid.truthy with
            | false => simp [hfj, hdec, jsonTruthyOpt, hkid, hkt]
            | true =>
              cases jwks with
              | null => simp [hfj, hdec, jsonTruthyOpt, hkid, hkt]
              | bool b => simp [hfj, hdec, jsonTruthyOpt, hkid, hkt]
              | num n => simp [hfj, hdec, jsonTruthyOpt, hkid, hkt]
              | str s => simp [hfj, hdec, jsonTruthyOpt, hkid, hkt]
              | arr xs => simp [hfj, hdec, jsonTruthyOpt, hkid, hkt]
              | obj jfs =>
                cases hfind : TestSSO.findMatchingKey kid
                    ((jget jfs "keys").getD (Json.arr [])) with
                | error m => simp [hfj, hdec, jsonTruthyOpt, hkid, hkt, hfind]
                | ok mk =>
                  cases mk with
                  | none => simp [hfj, hdec, jsonTruthyOpt, hkid, hkt, hfind]
                  | some key =>
                    cases hfw : fw key with
                    | error m =>
                        simp [hfj, hdec, jsonTruthyOpt, hkid, hkt, hfind, hfw]
                    | ok pk =>
                      cases hjd : jd pk ["RS256"] ("api://" ++ cid)
                          ["https://sts.windows.net/" ++ tid ++ "/",
                           "https://login.microsoftonline.com/" ++ tid ++ "/v2.0"] with
                      | ok p2 =>
                          simp [hfj, hdec, jsonTruthyOpt, hkid, hkt, hfind, hfw, hjd]
                      | expired =>
                          simp [hfj, hdec, jsonTruthyOpt, hkid, hkt, hfind, hfw, hjd]
                      | invalidAudience m =>
                          simp [hfj, hdec, jsonTruthyOpt, hkid, hkt, hfind, hfw, hjd]
                      | invalidIssuer m =>
                          simp [hfj, hdec, jsonTruthyOpt, hkid, hkt, hfind, hfw, hjd]
                      | invalidSignature =>
                          simp [hfj, hdec, jsonTruthyOpt, hkid, hkt, hfind, hfw, hjd]
                      | decodeError m =>
                          simp [hfj, hdec, jsonTruthyOpt, hkid, hkt, hfind, hfw, hjd]
                      | otherExn m =>
                          simp [hfj, hdec, jsonTruthyOpt, hkid, hkt, hfind, hfw, hjd]

/-- Claim C7 (confirmed): `validate_token_cryptographically` performs one
linear pass: a single OpenID-configuration fetch and a single JWKS fetch
(captured by the locality conjunct: the result depends on `fetchJwks` only
through its value at the fetched `jwks_uri`); it returns `None` and
records a failed check when the decoded header lacks a truthy `kid` or
when no JWKS key matches it; and it returns a payload exactly when
`jwt.decode` succeeds on the matched key with algorithm `RS256`, audience
`api://{client_id}`, and the v1.0/v2.0 issuer list of the tenant. -/
theorem claim7_confirmed :
    (∀ (token : List Char) (tid cid : String) (loads : List Nat → Option Json)
        (u : String) (jwks pl : Json) (hfs : List (String × Json))
        (fj : String → Except TestSSO.FetchErr Json) (fw : Json → Except String Json)
        (jd : Json → List String → String → List String → TestSSO.JwtDecodeOutcome),
      fj u = .ok jwks →
      TestSSO.decode_token_unverified loads token = .ok (Json.obj hfs, pl) →
      jsonTruthyOpt (jget hfs "kid") = false →
      (TestSSO.validate_token_cryptographically token tid cid loads (.ok u) fj fw jd).2 =
          none ∧
      (⟨"Token has key ID (kid)", false,
        "No " ++ apos ++ "kid" ++ apos ++ " in token header"⟩ : TestSSO.Check) ∈
        (TestSSO.validate_token_cryptographically token tid cid loads (.ok u) fj fw jd).1) ∧
    (∀ (token : List Char) (tid cid : String) (loads : List Nat → Option Json)
        (u : String) (pl kid : Json) (hfs jfs : List (String × Json))
        (fj : String → Except TestSSO.FetchErr Json) (fw : Json → Except String Json)
        (jd : Json → List String → String → List String → TestSSO.JwtDecodeOutcome),
      fj u = .ok (Json.obj jfs) →
      TestSSO.decode_token_unverified loads token = .ok (Json.obj hfs, pl) →
      jget hfs "kid" = some kid → kid.truthy = true →
      TestSSO.findMatchingKey kid ((jget jfs "keys").getD (Json.arr [])) = .ok none →
      (TestSSO.validate_token_cryptographically token tid cid loads (.ok u) fj fw jd).2 =
          none ∧
      (⟨"Find matching public key", false,
        "No key found for kid=" ++ TestSSO.jsonShow kid⟩ : TestSSO.Check) ∈
        (TestSSO.validate_token_cryptographically token tid cid loads (.ok u) fj fw jd).1) ∧
    (∀ (token : List Char) (tid cid : String) (loads : List Nat → Option Json)
        (fo : Except TestSSO.FetchErr String) (fj : String → Except TestSSO.FetchErr Json)
        (fw : Json → Except String Json)
        (jd : Json → List String → String → List String → TestSSO.JwtDecodeOutcome)
        (payload' : Json),
      (TestSSO.validate_token_cryptographically token tid cid loads fo fj fw jd).2 =
          some payload' ↔
        ∃ (jwks_uri : String) (jwks header pl kid key pk : Json)
          (hfs : List (String × Json)),
          fo = .ok jwks_uri ∧ fj jwks_uri = .ok jwks ∧
          TestSSO.decode_token_unverified loads token = .ok (header, pl) ∧
          header = Json.obj hfs ∧ jget hfs "kid" = some kid ∧ kid.truthy = true ∧
          (∃ jfs, jwks = Json.obj jfs ∧
            TestSSO.findMatchingKey kid ((jget jfs "keys").getD (Json.arr [])) =
              .ok (some key)) ∧
          fw key = .ok pk ∧
          jd pk ["RS256"] ("api://" ++ cid)
            ["https://sts.windows.net/" ++ tid ++ "/",
             "https://login.microsoftonline.com/" ++ tid ++ "/v2.0"] = .ok payload') ∧
    (∀ (token : List Char) (tid cid : String) (loads : List Nat → Option Json)
        (u : String) (fj₁ fj₂ : String → Except TestSSO.FetchErr Json)
        (fw : Json → Except String Json)
        (jd : Json → List String → String → List String → TestSSO.JwtDecodeOutcome),
      fj₁ u = fj₂ u →
      TestSSO.validate_token_cryptographically token tid cid loads (.ok u) fj₁ fw jd =
        TestSSO.validate_token_cryptographically token tid cid loads (.ok u) fj₂ fw jd) := by
  refine ⟨?_, ?_, ?_, ?_⟩
  · intro token tid cid loads u jwks pl hfs fj fw jd hfj hdec hkid
    unfold TestSSO.validate_token_cryptographically
    simp [hfj, hdec, hkid]
  · intro token tid cid loads u pl kid hfs jfs fj fw jd hfj hdec hkid hkt hfind
    unfold TestSSO.validate_token_cryptographically
    simp [hfj, hdec, jsonTruthyOpt, hkid, hkt, hfind]
  · intro token tid cid loads fo fj fw jd payload'
    exact validate_some_iff token tid cid loads fo fj fw jd payload'
  · intro token tid cid loads u fj₁ fj₂ fw jd hagree
    unfold TestSSO.validate_token_cryptographically
    simp only [hagree]

/-- Witness for C7 at a fully concrete token and oracle set: the token
`"AA.AA.AA"` decodes (via a constant `json.loads` oracle) to a header with
`kid = "k1"`, the JWKS holds one matching key, and `jwt.decode` succeeds. -/
theorem claim7_witness :
    (TestSSO.validate_token_cryptographically "AA.AA.AA".data "tenant1" "client1"
        (fun _ => some (Json.obj [("kid", Json.str "k1")]))
        (.ok "https://jwks.example/keys")
        (fun _ => .ok (Json.obj [("keys", Json.arr [Json.obj [("kid", Json.str "k1")]])]))
        (fun k => .ok k)
        (fun _ _ _ _ => .ok (Json.str "payload1"))).2 = some (Json.str "payload1") :=
  (claim7_confirmed.2.2.1 "AA.AA.AA".data "tenant1" "client1"
      (fun _ => some (Json.obj [("kid", Json.str "k1")]))
      (.ok "https://jwks.example/keys")
      (fun _ => .ok (Json.obj [("keys", Json.arr [Json.obj [("kid", Json.str "k1")]])]))
      (fun k => .ok k)
      (fun _ _ _ _ => .ok (Json.str "payload1"))
      (Json.str "payload1")).mpr
    ⟨"https://jwks.example/keys",
     Json.obj [("keys", Json.arr [Json.obj [("kid", Json.str "k1")]])],
     Json.obj [("kid", Json.str "k1")], Json.obj [("kid", Json.str "k1")],
     Json.str "k1", Json.obj [("kid", Json.str "k1")],
     Json.obj [("kid", Json.str "k1")], [("kid", Json.str "k1")],
     rfl, rfl, rfl, rfl, rfl, rfl, ⟨[("keys", Json.arr [Json.obj [("kid", Json.str "k1")]])],
       rfl, rfl⟩, rfl, rfl⟩
